import Mathlib

/-!
Verification development for the `parareq` repository.

The core under study is `src/parareq/parareq.py`: the class
`APIRequestProcessor` (admission loop `_process_api_requests_from_file`,
start-up checks in `__init__`, final renaming in `after_finishing`), the
dataclasses `StatusTracker` and `APIRequest` (dispatcher `call_api`), and the
CLI wrapper in `src/parareq/cli.py`.

The embedding is a small-step transition system over an explicit system state.
The cooperative asyncio scheduler only interleaves at the loop's two `await
asyncio.sleep` points, so one loop iteration up to the break check is a single
atomic step, waking from each sleep is a step (the cooldown check runs on wake
from the micro-sleep, mirroring the code order), and the terminal part of an
in-flight `call_api` task (everything after the awaited HTTP response) is a
single atomic step that can fire during either sleep.  Wall-clock time is
modelled by rationals; `time.time()` reads the state clock, sleeps advance it.

External collaborators are parameters: the HTTP transport supplies either a
raised exception or a decoded JSON response to each completion step, and the
token estimator (`num_tokens_consumed_from_request` + tiktoken) is a function
in the configuration.  File contents are modelled as the list of parsed JSON
objects (a malformed line aborts the run in the code and is out of scope of
the claims), and the result file as the list of appended records before
serialisation.
-/

namespace Parareq

/-- JSON-like values: the payloads, responses and metadata the program moves
around. -/
inductive JValue where
  | null
  | bool (b : Bool)
  | num (q : ℚ)
  | str (s : String)
  | arr (items : List JValue)
  | obj (fields : List (String × JValue))

/-- Python truthiness of a JSON value (`None`, `False`, `0`, `""`, `[]`, `{}`
are falsy). -/
def JValue.truthy : JValue → Bool
  | .null => false
  | .bool b => b
  | .num q => q != 0
  | .str s => s != ""
  | .arr items => !items.isEmpty
  | .obj fields => !fields.isEmpty

/-- A parsed JSON object (Python dict) as an association list. -/
abbrev JObject := List (String × JValue)

/-- Dict lookup: `d.get(k)` / `d[k]`. -/
def lookupKey (kvs : JObject) (k : String) : Option JValue :=
  (kvs.find? (fun kv => kv.1 == k)).map (fun kv => kv.2)

/-- Dict key removal, the effect of `d.pop(k, None)` on the dict. -/
def removeKey (kvs : JObject) (k : String) : JObject :=
  kvs.filter (fun kv => kv.1 != k)

/-- Python `needle in hay` on the underlying character lists. -/
def goInStr (n : List Char) : List Char → Bool
  | [] => n.isPrefixOf []
  | c :: rest => n.isPrefixOf (c :: rest) || goInStr n rest

/-- Python substring containment `needle in hay` for strings. -/
def pyInStr (needle hay : String) : Bool :=
  goInStr needle.data hay.data

/-- One pass of Python `str.replace` (replace every non-overlapping
occurrence, scanning left to right), with explicit fuel. -/
def replaceChars : Nat → List Char → List Char → List Char → List Char
  | 0, s, _, _ => s
  | _ + 1, [], _, _ => []
  | fuel + 1, c :: rest, pat, rep =>
    if pat.isPrefixOf (c :: rest) then
      rep ++ replaceChars fuel ((c :: rest).drop pat.length) pat rep
    else
      c :: replaceChars fuel rest pat rep

/-- Python `s.replace(pat, rep)`. -/
def pyReplace (s pat rep : String) : String :=
  String.mk (replaceChars s.data.length s.data pat.data rep.data)

/-- The `StatusTracker` dataclass: the script's progress counters
(`parareq.py`, lines 75-86). -/
structure StatusTracker where
  num_tasks_started : Int := 0
  num_tasks_in_progress : Int := 0
  num_tasks_succeeded : Int := 0
  num_tasks_failed : Int := 0
  num_rate_limit_errors : Int := 0
  num_api_errors : Int := 0
  num_other_errors : Int := 0
  time_of_last_rate_limit_error : ℚ := 0

/-- A record stored in `APIRequest.result`: either the error-bearing response
object, or a raised exception (identified by its message). -/
inductive ErrRecord where
  | resp (v : JValue)
  | exc (msg : String)

/-- Python truthiness of a stored error record: exceptions are always truthy,
a response object has JSON truthiness. -/
def ErrRecord.truthy : ErrRecord → Bool
  | .resp v => v.truthy
  | .exc _ => true

/-- Truthiness of the local variable `error` in `call_api`
(`None` when no error occurred). -/
def errIsTruthy : Option ErrRecord → Bool
  | none => false
  | some r => r.truthy

/-- The `APIRequest` dataclass (`parareq.py`, lines 343-352).  `request_json` is
the payload dict after `metadata` has been popped; `metadata` is the popped
value (`none` when the key was absent).  `dispatchCount` is a ghost field
counting how many times the job has been handed to the dispatcher. -/
structure APIRequest where
  task_id : Nat
  request_json : JObject
  token_consumption : ℚ
  attempts_left : Int
  metadata : Option JValue
  result : List ErrRecord
  dispatchCount : Nat

/-- Placeholder request used only to totalise indexed access. -/
def dfltRequest : APIRequest :=
  { task_id := 0, request_json := [], token_consumption := 0,
    attempts_left := 0, metadata := none, result := [], dispatchCount := 0 }

/-- Outcome recorded in a result-log line. -/
inductive LogOutcome where
  | success (response : JValue)
  | failures (errs : List ErrRecord)

/-- One line appended to the result file by `append_to_jsonl` (before JSON
serialisation; on the failure path the code serialises `str(e)` of each
record).  `metadata = some m` models the 3-element array, `none` the
2-element one. -/
structure LogLine where
  payload : JObject
  outcome : LogOutcome
  metadata : Option JValue

/-- Where the admission loop currently stands between suspension points. -/
inductive Mode where
  | ready
  | microSleep (wake : ℚ)
  | coolSleep (wake : ℚ)
  | drained
deriving DecidableEq

/-- The wake time of a sleeping mode. -/
def Mode.sleepWake : Mode → Option ℚ
  | .microSleep w => some w
  | .coolSleep w => some w
  | _ => none

/-- Configuration of one `APIRequestProcessor` run: the `__init__` arguments
that the admission loop reads, plus the two constants set in `__init__`
(`rate_limit_pause = 15`, `seconds_to_sleep_each_loop = 0.001`) and the token
estimator collaborator. -/
structure Config where
  max_requests_per_minute : ℚ
  max_tokens_per_minute : ℚ
  max_attempts : Int
  rate_limit_pause : ℚ := 15
  seconds_to_sleep_each_loop : ℚ := 1 / 1000
  estimator : JObject → ℚ

/-- The whole run state: the local variables of
`_process_api_requests_from_file`, the shared `StatusTracker`, the in-flight
`call_api` tasks, the result file, the wall clock, the loop position, and
three ghost observation logs (admission times, rate-limit rejection times,
dispatch counts of finalized jobs). -/
structure SysState where
  next_request : Option APIRequest
  file_not_finished : Bool
  source : List JObject
  retry_queue : List APIRequest
  task_id_ctr : Nat
  available_request_capacity : ℚ
  available_token_capacity : ℚ
  last_update_time : ℚ
  tracker : StatusTracker
  inFlight : List APIRequest
  resultLog : List LogLine
  clock : ℚ
  mode : Mode
  admissionTimes : List ℚ
  rejectionTimes : List ℚ
  finishedDispatchCounts : List Nat

/-- Initial state at the top of `_process_api_requests_from_file`:
capacities start at the limits, `last_update_time = time.time()`, empty
queues, zeroed tracker. -/
def initState (cfg : Config) (source : List JObject) (t0 : ℚ) : SysState :=
  { next_request := none
    file_not_finished := true
    source := source
    retry_queue := []
    task_id_ctr := 0
    available_request_capacity := cfg.max_requests_per_minute
    available_token_capacity := cfg.max_tokens_per_minute
    last_update_time := t0
    tracker := {}
    inFlight := []
    resultLog := []
    clock := t0
    mode := Mode.ready
    admissionTimes := []
    rejectionTimes := []
    finishedDispatchCounts := [] }

/-- Loop phase 1 (`parareq.py` lines 229-258): if no request is held, pull
from the retry queue first, else read the next file line (creating the
`APIRequest`, popping `metadata`, counting the task as started and in
progress), setting the exhaustion flag on `StopIteration`. -/
def fetchPhase (cfg : Config) (s : SysState) : SysState :=
  match s.next_request with
  | some _ => s
  | none =>
    match s.retry_queue with
    | req :: rest => { s with next_request := some req, retry_queue := rest }
    | [] =>
      if s.file_not_finished then
        match s.source with
        | [] => { s with file_not_finished := false }
        | line :: rest =>
          { s with
            next_request := some
              { task_id := s.task_id_ctr
                request_json := removeKey line "metadata"
                token_consumption := cfg.estimator line
                attempts_left := cfg.max_attempts
                metadata := lookupKey line "metadata"
                result := []
                dispatchCount := 0 }
            task_id_ctr := s.task_id_ctr + 1
            source := rest
            tracker := { s.tracker with
              num_tasks_started := s.tracker.num_tasks_started + 1
              num_tasks_in_progress := s.tracker.num_tasks_in_progress + 1 } }
      else s

/-- Loop phase 2 (lines 260-273): refill both capacities proportionally to
elapsed time, clamped at the per-minute limits. -/
def refillPhase (cfg : Config) (s : SysState) : SysState :=
  let seconds_since_update := s.clock - s.last_update_time
  { s with
    available_request_capacity :=
      min (s.available_request_capacity
            + cfg.max_requests_per_minute * seconds_since_update / 60)
        cfg.max_requests_per_minute
    available_token_capacity :=
      min (s.available_token_capacity
            + cfg.max_tokens_per_minute * seconds_since_update / 60)
        cfg.max_tokens_per_minute
    last_update_time := s.clock }

/-- Loop phase 3 (lines 275-297): if a request is held and both capacities
suffice (1 request-unit and `token_consumption` token-units), consume them,
decrement `attempts_left`, launch `call_api` as a concurrent task and clear
the held request. -/
def dispatchPhase (s : SysState) : SysState :=
  match s.next_request with
  | none => s
  | some req =>
    if 1 ≤ s.available_request_capacity ∧
        req.token_consumption ≤ s.available_token_capacity then
      { s with
        available_request_capacity := s.available_request_capacity - 1
        available_token_capacity :=
          s.available_token_capacity - req.token_consumption
        next_request := none
        inFlight := s.inFlight ++
          [{ req with attempts_left := req.attempts_left - 1,
                      dispatchCount := req.dispatchCount + 1 }]
        admissionTimes := s.admissionTimes ++ [s.clock] }
    else s

/-- One admission-loop iteration from the top of `while True` through the
break check (lines 227-301): fetch, refill, maybe dispatch, then break when
`num_tasks_in_progress == 0` (entering `drained`), else start the 1 ms
micro-sleep. -/
def iterStep (cfg : Config) (s : SysState) : SysState :=
  let s3 := dispatchPhase (refillPhase cfg (fetchPhase cfg s))
  if s3.tracker.num_tasks_in_progress = 0 then { s3 with mode := Mode.drained }
  else
    { s3 with mode := Mode.microSleep (s3.clock + cfg.seconds_to_sleep_each_loop) }

/-- Waking from the micro-sleep (lines 304-318): the loop then checks whether
a rate-limit error was hit within the last `rate_limit_pause` seconds and, if
so, sleeps for the remaining window (a single `if`, not re-checked after the
sleep), i.e. until `time_of_last_rate_limit_error + rate_limit_pause`. -/
def wakeMicroStep (cfg : Config) (s : SysState) (w : ℚ) : SysState :=
  let seconds_since_rate_limit_error :=
    w - s.tracker.time_of_last_rate_limit_error
  if seconds_since_rate_limit_error < cfg.rate_limit_pause then
    let wake := s.tracker.time_of_last_rate_limit_error + cfg.rate_limit_pause
    { s with clock := w, mode := Mode.coolSleep wake }
  else { s with clock := w, mode := Mode.ready }

/-- Waking from the cooldown sleep: the loop proceeds directly to the next
iteration. -/
def wakeCoolStep (s : SysState) (w : ℚ) : SysState :=
  { s with clock := w, mode := Mode.ready }

/-- Python `"error" in response` (`call_api`, line 372): key containment on a
dict, substring on a string, membership on a list, `TypeError` otherwise. -/
def pyInErrorCheck : JValue → Except String Bool
  | .obj kvs => .ok (kvs.any (fun kv => kv.1 == "error"))
  | .str s => .ok (pyInStr "error" s)
  | .arr items =>
    .ok (items.any (fun v => match v with | .str s => s == "error" | _ => false))
  | _ => .error "TypeError: argument of type is not iterable"

/-- Python `"Rate limit" in response["error"].get("message", "")`
(`call_api`, line 378), with every step that can raise modelled as an
`Except.error`. -/
def rateLimitSigCheck : JValue → Except String Bool
  | .obj kvs =>
    match lookupKey kvs "error" with
    | none => .error "KeyError: error"
    | some ev =>
      match ev with
      | .obj ekvs =>
        match (lookupKey ekvs "message").getD (JValue.str "") with
        | .str ms => .ok (pyInStr "Rate limit" ms)
        | .obj mkvs => .ok (mkvs.any (fun kv => kv.1 == "Rate limit"))
        | .arr items =>
          .ok (items.any
            (fun v => match v with | .str s => s == "Rate limit" | _ => false))
        | _ => .error "TypeError: argument of type is not iterable"
      | _ => .error "AttributeError: object has no attribute get"
  | _ => .error "TypeError: object is not subscriptable"

/-- Result of the classification section of `call_api` (lines 365-390): the
updated tracker, the final value of the local `error`, and whether the
rate-limit branch was taken. -/
structure ClassifyOut where
  tracker : StatusTracker
  error : Option ErrRecord
  isRateLimit : Bool

/-- The try/except classification in `call_api` (lines 365-390), given the
transport's outcome (`Except.error` = the call raised).  Mirrors the code's
update order: an error-bearing response first increments `num_api_errors` and
sets `error = response`; a rate-limit signature then records the time,
increments `num_rate_limit_errors` and undoes the api increment; any
exception raised along the way (including inside the signature check) is
caught, increments `num_other_errors` and overwrites `error`. -/
def classifyOutcome (res : Except String JValue) (now : ℚ)
    (st : StatusTracker) : ClassifyOut :=
  match res with
  | .error e =>
    { tracker := { st with num_other_errors := st.num_other_errors + 1 }
      error := some (ErrRecord.exc e), isRateLimit := false }
  | .ok resp =>
    match pyInErrorCheck resp with
    | .error e =>
      { tracker := { st with num_other_errors := st.num_other_errors + 1 }
        error := some (ErrRecord.exc e), isRateLimit := false }
    | .ok false => { tracker := st, error := none, isRateLimit := false }
    | .ok true =>
      let st1 := { st with num_api_errors := st.num_api_errors + 1 }
      match rateLimitSigCheck resp with
      | .error e =>
        { tracker := { st1 with num_other_errors := st1.num_other_errors + 1 }
          error := some (ErrRecord.exc e), isRateLimit := false }
      | .ok true =>
        { tracker := { st1 with
            time_of_last_rate_limit_error := now
            num_rate_limit_errors := st1.num_rate_limit_errors + 1
            num_api_errors := st1.num_api_errors - 1 }
          error := some (ErrRecord.resp resp), isRateLimit := true }
      | .ok false =>
        { tracker := st1, error := some (ErrRecord.resp resp),
          isRateLimit := false }

/-- Truthiness of the Python value `if self.metadata:` in `call_api`. -/
def metaTruthy : Option JValue → Bool
  | none => false
  | some v => v.truthy

/-- The successful response carried into the success branch. -/
def okValue : Except String JValue → JValue
  | .ok v => v
  | .error _ => JValue.null

/-- Completion of the in-flight `call_api` task at index `i` at time `t`
(lines 392-417): classify the transport outcome, then either re-queue the job
(`error` truthy and `attempts_left` non-zero), finalize it as failed
(`error` truthy, `attempts_left == 0`: log the accumulated errors), or
finalize it as succeeded (log the response).  The metadata element is
included exactly when `self.metadata` is truthy. -/
def completeStep (cfg : Config) (s : SysState) (i : Nat)
    (res : Except String JValue) (t : ℚ) : SysState :=
  let req := s.inFlight.getD i dfltRequest
  let out := classifyOutcome res t s.tracker
  let base : SysState := { s with
    inFlight := s.inFlight.eraseIdx i
    tracker := out.tracker
    clock := t
    rejectionTimes :=
      if out.isRateLimit then s.rejectionTimes ++ [t] else s.rejectionTimes }
  if errIsTruthy out.error then
    let req' := { req with
      result := req.result ++ [out.error.getD (ErrRecord.exc "")] }
    if req'.attempts_left ≠ 0 then
      { base with retry_queue := base.retry_queue ++ [req'] }
    else
      { base with
        resultLog := base.resultLog ++
          [{ payload := req'.request_json
             outcome := LogOutcome.failures req'.result
             metadata := if metaTruthy req'.metadata then req'.metadata else none }]
        tracker := { out.tracker with
          num_tasks_in_progress := out.tracker.num_tasks_in_progress - 1
          num_tasks_failed := out.tracker.num_tasks_failed + 1 }
        finishedDispatchCounts :=
          base.finishedDispatchCounts ++ [req'.dispatchCount] }
  else
    { base with
      resultLog := base.resultLog ++
        [{ payload := req.request_json
           outcome := LogOutcome.success (okValue res)
           metadata := if metaTruthy req.metadata then req.metadata else none }]
      tracker := { out.tracker with
        num_tasks_in_progress := out.tracker.num_tasks_in_progress - 1
        num_tasks_succeeded := out.tracker.num_tasks_succeeded + 1 }
      finishedDispatchCounts :=
        base.finishedDispatchCounts ++ [req.dispatchCount] }

/-- The small-step relation of one run: a loop iteration when the loop is at
the top, waking from either sleep, or completion of an in-flight dispatcher
task during a sleep window at a time within that window. -/
inductive Step (cfg : Config) : SysState → SysState → Prop where
  | iter (s : SysState) (h : s.mode = Mode.ready) :
      Step cfg s (iterStep cfg s)
  | wakeMicro (s : SysState) (w : ℚ) (h : s.mode = Mode.microSleep w) :
      Step cfg s (wakeMicroStep cfg s w)
  | wakeCool (s : SysState) (w : ℚ) (h : s.mode = Mode.coolSleep w) :
      Step cfg s (wakeCoolStep s w)
  | complete (s : SysState) (w : ℚ) (i : Nat) (res : Except String JValue)
      (t : ℚ) (hm : s.mode.sleepWake = some w) (hi : i < s.inFlight.length)
      (h1 : s.clock ≤ t) (h2 : t ≤ w) :
      Step cfg s (completeStep cfg s i res t)

/-- Reachability of a state in a run. -/
def Reach (cfg : Config) (s0 s : SysState) : Prop :=
  Relation.ReflTransGen (Step cfg) s0 s

/-- Number of currently held jobs (0 or 1). -/
def heldCount (s : SysState) : Nat :=
  if s.next_request.isSome then 1 else 0

/-- Number of jobs alive in the system: held, queued for retry, or in
flight. -/
def countJobs (s : SysState) : Nat :=
  heldCount s + s.retry_queue.length + s.inFlight.length

/-- All alive jobs as a list. -/
def allJobs (s : SysState) : List APIRequest :=
  s.next_request.toList ++ s.retry_queue ++ s.inFlight

/-- Whether a result-log line records an exhausted-retries failure. -/
def isFailureLine (l : LogLine) : Bool :=
  match l.outcome with
  | .failures _ => true
  | .success _ => false

/-- Whether a result-log line records a success. -/
def isSuccessLine (l : LogLine) : Bool :=
  match l.outcome with
  | .success _ => true
  | .failures _ => false

/-- Bookkeeping invariant: the tracker counters agree with the jobs actually
alive and the lines actually logged, and the exhaustion flag is honest. -/
def InvCount0 (s : SysState) : Prop :=
  s.tracker.num_tasks_started =
      s.tracker.num_tasks_succeeded + s.tracker.num_tasks_failed +
        s.tracker.num_tasks_in_progress ∧
  s.tracker.num_tasks_in_progress = (countJobs s : Int) ∧
  (s.file_not_finished = false → s.source = []) ∧
  s.tracker.num_tasks_failed = (s.resultLog.countP isFailureLine : Int) ∧
  s.tracker.num_tasks_succeeded = (s.resultLog.countP isSuccessLine : Int)

/-- Full bookkeeping invariant: additionally, the loop only drains with no
task in progress. -/
def InvCount (s : SysState) : Prop :=
  InvCount0 s ∧
  (s.mode = Mode.drained → s.tracker.num_tasks_in_progress = 0)

theorem classify_tracker_counts (res : Except String JValue) (now : ℚ)
    (st : StatusTracker) :
    (classifyOutcome res now st).tracker.num_tasks_started =
        st.num_tasks_started ∧
    (classifyOutcome res now st).tracker.num_tasks_in_progress =
        st.num_tasks_in_progress ∧
    (classifyOutcome res now st).tracker.num_tasks_succeeded =
        st.num_tasks_succeeded ∧
    (classifyOutcome res now st).tracker.num_tasks_failed =
        st.num_tasks_failed := by
  unfold classifyOutcome
  rcases res with e | resp
  · simp
  · rcases h : pyInErrorCheck resp with e | b
    · simp [h]
    · cases b
      · simp [h]
      · rcases h2 : rateLimitSigCheck resp with e2 | b2
        · simp [h, h2]
        · cases b2 <;> simp [h, h2]

theorem invCount0_fetch (cfg : Config) (s : SysState) (h : InvCount0 s) :
    InvCount0 (fetchPhase cfg s) := by
  obtain ⟨h1, h2, h3, h4, h5⟩ := h
  unfold fetchPhase
  split
  · exact ⟨h1, h2, h3, h4, h5⟩
  · rename_i hnone
    split
    · rename_i req rest hq
      refine ⟨h1, ?_, h3, h4, h5⟩
      simp only [countJobs, heldCount, hnone, hq] at h2 ⊢
      simp only [Option.isSome_none, Option.isSome_some, List.length_cons] at h2 ⊢
      push_cast at h2 ⊢
      simp at h2 ⊢
      omega
    · rename_i hq
      split
      · rename_i hff
        split
        · rename_i hsrc
          exact ⟨h1, h2, fun _ => hsrc, h4, h5⟩
        · rename_i line rest hsrc
          refine ⟨?_, ?_, ?_, h4, h5⟩
          · simp only []
            omega
          · simp only [countJobs, heldCount, hnone, hq, hsrc] at h2 ⊢
            simp only [Option.isSome_none, Option.isSome_some,
              List.length_nil, List.length_cons] at h2 ⊢
            push_cast at h2 ⊢
            simp at h2 ⊢
            omega
          · intro hc
            simp only [hff] at hc
            cases hc
      · exact ⟨h1, h2, h3, h4, h5⟩

theorem invCount0_refill (cfg : Config) (s : SysState) (h : InvCount0 s) :
    InvCount0 (refillPhase cfg s) := h

theorem invCount0_dispatch (s : SysState) (h : InvCount0 s) :
    InvCount0 (dispatchPhase s) := by
  obtain ⟨h1, h2, h3, h4, h5⟩ := h
  unfold dispatchPhase
  split
  · exact ⟨h1, h2, h3, h4, h5⟩
  · rename_i req hsome
    split
    · refine ⟨h1, ?_, h3, h4, h5⟩
      simp only [countJobs, heldCount, hsome] at h2 ⊢
      simp only [Option.isSome_some, Option.isSome_none,
        List.length_append, List.length_cons, List.length_nil] at h2 ⊢
      push_cast at h2 ⊢
      simp at h2 ⊢
      omega
    · exact ⟨h1, h2, h3, h4, h5⟩

theorem invCount_iter (cfg : Config) (s : SysState) (h : InvCount s) :
    InvCount (iterStep cfg s) := by
  have h0 : InvCount0 (dispatchPhase (refillPhase cfg (fetchPhase cfg s))) :=
    invCount0_dispatch _ (invCount0_refill cfg _ (invCount0_fetch cfg s h.1))
  unfold iterStep
  dsimp only
  split
  · rename_i hz
    exact ⟨h0, fun _ => hz⟩
  · refine ⟨h0, ?_⟩
    intro hc
    cases hc

theorem invCount_wakeMicro (cfg : Config) (s : SysState) (w : ℚ)
    (h : InvCount s) : InvCount (wakeMicroStep cfg s w) := by
  unfold wakeMicroStep
  dsimp only
  split
  · exact ⟨h.1, by intro hc; cases hc⟩
  · exact ⟨h.1, by intro hc; cases hc⟩

theorem invCount_wakeCool (s : SysState) (w : ℚ) (h : InvCount s) :
    InvCount (wakeCoolStep s w) :=
  ⟨h.1, by intro hc; cases hc⟩

theorem invCount_complete (cfg : Config) (s : SysState) (i : Nat)
    (res : Except String JValue) (t : ℚ) (hi : i < s.inFlight.length)
    (hm : s.mode.sleepWake ≠ none) (h : InvCount s) :
    InvCount (completeStep cfg s i res t) := by
  obtain ⟨⟨h1, h2, h3, h4, h5⟩, _⟩ := h
  obtain ⟨c1, c2, c3, c4⟩ := classify_tracker_counts res t s.tracker
  have hlen : (s.inFlight.eraseIdx i).length = s.inFlight.length - 1 :=
    List.length_eraseIdx_of_lt hi
  unfold completeStep
  dsimp only
  split
  · split
    · -- error truthy, attempts_left non-zero: re-queued
      refine ⟨⟨?_, ?_, h3, ?_, ?_⟩, ?_⟩
      · simp only [c1, c2, c3, c4]
        exact h1
      · simp only [countJobs, heldCount, c2, List.length_append,
          List.length_cons, List.length_nil, hlen] at h2 ⊢
        push_cast at h2 ⊢
        omega
      · simp only [c4]; exact h4
      · simp only [c3]; exact h5
      · intro hc
        exact absurd (by rw [hc]; rfl) hm
    · -- error truthy, attempts_left = 0: finalized as failed
      refine ⟨⟨?_, ?_, h3, ?_, ?_⟩, ?_⟩
      · simp only [c1, c2, c3, c4]
        omega
      · simp only [countJobs, heldCount, c2, hlen] at h2 ⊢
        push_cast at h2 ⊢
        omega
      · simp only [c4, List.countP_append]
        simp [isFailureLine]
        push_cast
        omega
      · simp only [c3, List.countP_append]
        simp [isSuccessLine]
        push_cast
        omega
      · intro hc
        exact absurd (by rw [hc]; rfl) hm
  · -- no truthy error: finalized as succeeded
    refine ⟨⟨?_, ?_, h3, ?_, ?_⟩, ?_⟩
    · simp only [c1, c2, c3, c4]
      omega
    · simp only [countJobs, heldCount, c2, hlen] at h2 ⊢
      push_cast at h2 ⊢
      omega
    · simp only [c4, List.countP_append]
      simp [isFailureLine]
      push_cast
      omega
    · simp only [c3, List.countP_append]
      simp [isSuccessLine]
      push_cast
      omega
    · intro hc
      exact absurd (by rw [hc]; rfl) hm

theorem invCount_step (cfg : Config) (s s' : SysState) (h : InvCount s)
    (hs : Step cfg s s') : InvCount s' := by
  cases hs with
  | iter hm => exact invCount_iter cfg s h
  | wakeMicro w hm => exact invCount_wakeMicro cfg s w h
  | wakeCool w hm => exact invCount_wakeCool s w h
  | complete w i res t hm hi h1 h2 =>
    exact invCount_complete cfg s i res t hi (by simp [hm]) h

theorem invCount_init (cfg : Config) (src : List JObject) (t0 : ℚ) :
    InvCount (initState cfg src t0) := by
  refine ⟨⟨rfl, rfl, ?_, rfl, rfl⟩, fun hc => rfl⟩
  intro hc
  cases hc

theorem reach_invCount (cfg : Config) (src : List JObject) (t0 : ℚ)
    (s : SysState) (hs : Reach cfg (initState cfg src t0) s) : InvCount s := by
  induction hs with
  | refl => exact invCount_init cfg src t0
  | tail _ hstep ih => exact invCount_step cfg _ _ ih hstep

/-- Sanity conditions on the configuration, all part of the spec's caller
contract: non-negative rate limits, a non-negative loop delay, and a cost
estimator that never returns a negative cost. -/
def CfgOk (cfg : Config) : Prop :=
  0 ≤ cfg.max_requests_per_minute ∧ 0 ≤ cfg.max_tokens_per_minute ∧
  0 ≤ cfg.seconds_to_sleep_each_loop ∧ ∀ line, 0 ≤ cfg.estimator line

/-- Clock sanity: refills never see negative elapsed time, and a sleeping
loop's wake time is never in the past. -/
def InvTime (s : SysState) : Prop :=
  s.last_update_time ≤ s.clock ∧
  ∀ w, s.mode.sleepWake = some w → s.clock ≤ w

/-- Capacity invariant: both capacities stay within `[0, limit]`, and every
alive job carries a non-negative cost. -/
def InvCaps (cfg : Config) (s : SysState) : Prop :=
  0 ≤ s.available_request_capacity ∧
  s.available_request_capacity ≤ cfg.max_requests_per_minute ∧
  0 ≤ s.available_token_capacity ∧
  s.available_token_capacity ≤ cfg.max_tokens_per_minute ∧
  ∀ j ∈ allJobs s, 0 ≤ j.token_consumption

theorem invTC_fetch (cfg : Config) (s : SysState) (hcfg : CfgOk cfg)
    (h : InvTime s ∧ InvCaps cfg s) :
    InvTime (fetchPhase cfg s) ∧ InvCaps cfg (fetchPhase cfg s) := by
  obtain ⟨ht, hc1, hc2, hc3, hc4, hjobs⟩ := h
  unfold fetchPhase
  split
  · exact ⟨ht, hc1, hc2, hc3, hc4, hjobs⟩
  · rename_i hnone
    split
    · rename_i req rest hq
      refine ⟨ht, hc1, hc2, hc3, hc4, ?_⟩
      intro j hj
      apply hjobs
      simp only [allJobs, hnone, hq, Option.toList_some, Option.toList_none,
        List.mem_append, List.mem_cons, List.not_mem_nil] at hj ⊢
      tauto
    · rename_i hq
      split
      · split
        · exact ⟨ht, hc1, hc2, hc3, hc4, hjobs⟩
        · rename_i line rest hsrc
          refine ⟨ht, hc1, hc2, hc3, hc4, ?_⟩
          intro j hj
          simp only [allJobs, hnone, hq, hsrc, Option.toList_some,
            Option.toList_none, List.mem_append, List.mem_cons,
            List.not_mem_nil, or_false, false_or, List.nil_append] at hj
          rcases hj with hj | hj
          · subst hj
            exact hcfg.2.2.2 line
          · exact hjobs j (by simp [allJobs, hnone, hq, hj])
      · exact ⟨ht, hc1, hc2, hc3, hc4, hjobs⟩

theorem invTC_refill (cfg : Config) (s : SysState) (hcfg : CfgOk cfg)
    (h : InvTime s ∧ InvCaps cfg s) :
    InvTime (refillPhase cfg s) ∧ InvCaps cfg (refillPhase cfg s) := by
  obtain ⟨⟨ht1, ht2⟩, hc1, hc2, hc3, hc4, hjobs⟩ := h
  have hd : 0 ≤ s.clock - s.last_update_time := by linarith
  have h60 : (0 : ℚ) ≤ 60 := by norm_num
  refine ⟨⟨le_refl _, ht2⟩, ?_, ?_, ?_, ?_, hjobs⟩
  · exact le_min
      (add_nonneg hc1 (div_nonneg (mul_nonneg hcfg.1 hd) h60)) hcfg.1
  · exact min_le_right _ _
  · exact le_min
      (add_nonneg hc3 (div_nonneg (mul_nonneg hcfg.2.1 hd) h60)) hcfg.2.1
  · exact min_le_right _ _

theorem invTC_dispatch (cfg : Config) (s : SysState)
    (h : InvTime s ∧ InvCaps cfg s) :
    InvTime (dispatchPhase s) ∧ InvCaps cfg (dispatchPhase s) := by
  obtain ⟨ht, hc1, hc2, hc3, hc4, hjobs⟩ := h
  unfold dispatchPhase
  split
  · exact ⟨ht, hc1, hc2, hc3, hc4, hjobs⟩
  · rename_i req hsome
    split
    · rename_i hcap
      have hcost : 0 ≤ req.token_consumption :=
        hjobs req (by simp [allJobs, hsome])
      refine ⟨ht, ?_, ?_, ?_, ?_, ?_⟩
      · show (0 : ℚ) ≤ s.available_request_capacity - 1
        linarith [hcap.1]
      · show s.available_request_capacity - 1 ≤ cfg.max_requests_per_minute
        linarith
      · show (0 : ℚ) ≤ s.available_token_capacity - req.token_consumption
        linarith [hcap.2]
      · show s.available_token_capacity - req.token_consumption ≤
          cfg.max_tokens_per_minute
        linarith
      · intro j hj
        simp only [allJobs, hsome, Option.toList_some, Option.toList_none,
          List.mem_append, List.mem_cons, List.not_mem_nil, or_false,
          false_or, List.nil_append] at hj
        rcases hj with hj | hj | hj
        · exact hjobs j (by simp [allJobs, hsome, hj])
        · exact hjobs j (by simp [allJobs, hsome, hj])
        · subst hj
          exact hcost
    · exact ⟨ht, hc1, hc2, hc3, hc4, hjobs⟩

theorem invTC_iter (cfg : Config) (s : SysState) (hcfg : CfgOk cfg)
    (h : InvTime s ∧ InvCaps cfg s) :
    InvTime (iterStep cfg s) ∧ InvCaps cfg (iterStep cfg s) := by
  have h3 := invTC_dispatch cfg _ (invTC_refill cfg _ hcfg (invTC_fetch cfg s hcfg h))
  obtain ⟨⟨ht1, ht2⟩, hcaps⟩ := h3
  unfold iterStep
  dsimp only
  split
  · refine ⟨⟨ht1, ?_⟩, hcaps⟩
    intro w hw
    cases hw
  · refine ⟨⟨ht1, ?_⟩, hcaps⟩
    intro w hw
    simp only [Mode.sleepWake, Option.some.injEq] at hw
    subst hw
    linarith [hcfg.2.2.1]

theorem invTC_wakeMicro (cfg : Config) (s : SysState) (w : ℚ)
    (hm : s.mode = Mode.microSleep w) (h : InvTime s ∧ InvCaps cfg s) :
    InvTime (wakeMicroStep cfg s w) ∧ InvCaps cfg (wakeMicroStep cfg s w) := by
  obtain ⟨⟨ht1, ht2⟩, hcaps⟩ := h
  have hw : s.clock ≤ w := ht2 w (by rw [hm]; rfl)
  unfold wakeMicroStep
  dsimp only
  split
  · rename_i hcool
    refine ⟨⟨by linarith, ?_⟩, hcaps⟩
    intro w' hw'
    simp only [Mode.sleepWake, Option.some.injEq] at hw'
    subst hw'
    linarith
  · refine ⟨⟨by linarith, ?_⟩, hcaps⟩
    intro w' hw'
    cases hw'

theorem invTC_wakeCool (cfg : Config) (s : SysState) (w : ℚ)
    (hm : s.mode = Mode.coolSleep w) (h : InvTime s ∧ InvCaps cfg s) :
    InvTime (wakeCoolStep s w) ∧ InvCaps cfg (wakeCoolStep s w) := by
  obtain ⟨⟨ht1, ht2⟩, hcaps⟩ := h
  have hw : s.clock ≤ w := ht2 w (by rw [hm]; rfl)
  refine ⟨⟨?_, ?_⟩, hcaps⟩
  · show s.last_update_time ≤ w
    linarith
  · intro w' hw'
    cases hw'

theorem invTC_complete (cfg : Config) (s : SysState) (i : Nat)
    (res : Except String JValue) (t : ℚ) (w : ℚ)
    (hm : s.mode.sleepWake = some w) (hi : i < s.inFlight.length)
    (h1 : s.clock ≤ t) (h2 : t ≤ w) (h : InvTime s ∧ InvCaps cfg s) :
    InvTime (completeStep cfg s i res t) ∧
      InvCaps cfg (completeStep cfg s i res t) := by
  obtain ⟨⟨ht1, ht2⟩, hc1, hc2, hc3, hc4, hjobs⟩ := h
  have hreqmem : s.inFlight.getD i dfltRequest ∈ s.inFlight := by
    simp [List.getD, List.getElem?_eq_getElem hi]
  have hreqcost : 0 ≤ (s.inFlight.getD i dfltRequest).token_consumption := by
    apply hjobs
    simp only [allJobs, List.mem_append]
    exact Or.inr hreqmem
  have herase : ∀ j ∈ s.inFlight.eraseIdx i, 0 ≤ j.token_consumption :=
    fun j hj => hjobs j (by
      simp only [allJobs, List.mem_append]
      exact Or.inr (List.mem_of_mem_eraseIdx hj))
  unfold completeStep
  dsimp only
  split
  · split
    · refine ⟨⟨by linarith, ?_⟩, hc1, hc2, hc3, hc4, ?_⟩
      · intro w' hw'
        rw [hm] at hw'
        cases hw'
        linarith
      · intro j hj
        simp only [allJobs, List.mem_append, List.mem_cons,
          List.not_mem_nil, or_false] at hj
        rcases hj with (hj | hj) | hj
        · exact hjobs j (by simp [allJobs, List.mem_append, hj])
        · rcases hj with hj | hj
          · exact hjobs j (by simp [allJobs, List.mem_append, hj])
          · subst hj
            exact hreqcost
        · exact herase j hj
    · refine ⟨⟨by linarith, ?_⟩, hc1, hc2, hc3, hc4, ?_⟩
      · intro w' hw'
        rw [hm] at hw'
        cases hw'
        linarith
      · intro j hj
        simp only [allJobs, List.mem_append] at hj
        rcases hj with (hj | hj) | hj
        · exact hjobs j (by simp [allJobs, List.mem_append, hj])
        · exact hjobs j (by simp [allJobs, List.mem_append, hj])
        · exact herase j hj
  · refine ⟨⟨by linarith, ?_⟩, hc1, hc2, hc3, hc4, ?_⟩
    · intro w' hw'
      rw [hm] at hw'
      cases hw'
      linarith
    · intro j hj
      simp only [allJobs, List.mem_append] at hj
      rcases hj with (hj | hj) | hj
      · exact hjobs j (by simp [allJobs, List.mem_append, hj])
      · exact hjobs j (by simp [allJobs, List.mem_append, hj])
      · exact herase j hj

theorem invTC_step (cfg : Config) (s s' : SysState) (hcfg : CfgOk cfg)
    (h : InvTime s ∧ InvCaps cfg s) (hs : Step cfg s s') :
    InvTime s' ∧ InvCaps cfg s' := by
  cases hs with
  | iter hm => exact invTC_iter cfg s hcfg h
  | wakeMicro w hm => exact invTC_wakeMicro cfg s w hm h
  | wakeCool w hm => exact invTC_wakeCool cfg s w hm h
  | complete w i res t hm hi h1 h2 =>
    exact invTC_complete cfg s i res t w hm hi h1 h2 h

theorem invTC_init (cfg : Config) (src : List JObject) (t0 : ℚ)
    (hcfg : CfgOk cfg) :
    InvTime (initState cfg src t0) ∧ InvCaps cfg (initState cfg src t0) := by
  refine ⟨⟨le_refl _, ?_⟩, hcfg.1, le_refl _, hcfg.2.1, le_refl _, ?_⟩
  · intro w hw
    cases hw
  · intro j hj
    simp [allJobs, initState] at hj

theorem reach_invTC (cfg : Config) (src : List JObject) (t0 : ℚ)
    (s : SysState) (hcfg : CfgOk cfg)
    (hs : Reach cfg (initState cfg src t0) s) :
    InvTime s ∧ InvCaps cfg s := by
  induction hs with
  | refl => exact invTC_init cfg src t0 hcfg
  | tail _ hstep ih => exact invTC_step cfg _ _ hcfg ih hstep

/-- Retry-budget invariant (meaningful when `max_attempts ≥ 1`): a held or
queued job always has at least one attempt left, an in-flight job at least
zero, every alive job satisfies
`attempts_left + dispatchCount = max_attempts`, and every finalized job was
dispatched at most `max_attempts` times. -/
def InvAttempts (cfg : Config) (s : SysState) : Prop :=
  (∀ j ∈ s.next_request.toList ++ s.retry_queue,
      1 ≤ j.attempts_left ∧
        j.attempts_left + (j.dispatchCount : Int) = cfg.max_attempts) ∧
  (∀ j ∈ s.inFlight,
      0 ≤ j.attempts_left ∧
        j.attempts_left + (j.dispatchCount : Int) = cfg.max_attempts) ∧
  (∀ c ∈ s.finishedDispatchCounts, (c : Int) ≤ cfg.max_attempts)

theorem invAtt_fetch (cfg : Config) (s : SysState)
    (hmax : 1 ≤ cfg.max_attempts) (h : InvAttempts cfg s) :
    InvAttempts cfg (fetchPhase cfg s) := by
  obtain ⟨ha, hb, hc⟩ := h
  unfold fetchPhase
  split
  · exact ⟨ha, hb, hc⟩
  · rename_i hnone
    split
    · rename_i req rest hq
      refine ⟨?_, hb, hc⟩
      intro j hj
      apply ha
      simp only [hnone, hq, Option.toList_some, Option.toList_none,
        List.mem_append, List.mem_cons, List.not_mem_nil, or_false, false_or,
        List.nil_append] at hj ⊢
      tauto
    · rename_i hq
      split
      · split
        · exact ⟨ha, hb, hc⟩
        · rename_i line rest hsrc
          refine ⟨?_, hb, hc⟩
          intro j hj
          simp only [hnone, hq, Option.toList_some, Option.toList_none,
            List.mem_append, List.mem_cons, List.not_mem_nil, or_false,
            false_or, List.nil_append] at hj
          subst hj
          exact ⟨hmax, by push_cast; omega⟩
      · exact ⟨ha, hb, hc⟩

theorem invAtt_dispatch (cfg : Config) (s : SysState)
    (h : InvAttempts cfg s) : InvAttempts cfg (dispatchPhase s) := by
  obtain ⟨ha, hb, hc⟩ := h
  unfold dispatchPhase
  split
  · exact ⟨ha, hb, hc⟩
  · rename_i req hsome
    split
    · obtain ⟨hr1, hr2⟩ := ha req (by simp [hsome])
      refine ⟨?_, ?_, hc⟩
      · intro j hj
        have hj' : j ∈ s.retry_queue := by simpa using hj
        apply ha
        rw [hsome]
        simp [hj']
      · intro j hj
        rcases List.mem_append.mp hj with hj | hj
        · exact hb j hj
        · have hjeq : j = { req with attempts_left := req.attempts_left - 1, dispatchCount := req.dispatchCount + 1 } := by
            simpa using hj
          subst hjeq
          constructor
          · show (0 : Int) ≤ req.attempts_left - 1
            omega
          · show req.attempts_left - 1 + ((req.dispatchCount + 1 : Nat) : Int) =
              cfg.max_attempts
            push_cast
            omega
    · exact ⟨ha, hb, hc⟩

theorem invAtt_complete (cfg : Config) (s : SysState) (i : Nat)
    (res : Except String JValue) (t : ℚ) (hi : i < s.inFlight.length)
    (h : InvAttempts cfg s) : InvAttempts cfg (completeStep cfg s i res t) := by
  obtain ⟨ha, hb, hc⟩ := h
  have hreqmem : s.inFlight.getD i dfltRequest ∈ s.inFlight := by
    simp [List.getD, List.getElem?_eq_getElem hi]
  have hreq := hb _ hreqmem
  have herase : ∀ j ∈ s.inFlight.eraseIdx i,
      0 ≤ j.attempts_left ∧
        j.attempts_left + (j.dispatchCount : Int) = cfg.max_attempts :=
    fun j hj => hb j (List.mem_of_mem_eraseIdx hj)
  obtain ⟨hr1, hr2⟩ := hreq
  unfold completeStep
  dsimp only
  split
  · split
    · -- re-queued
      rename_i herr hatt
      have hne : (s.inFlight.getD i dfltRequest).attempts_left ≠ 0 := hatt
      refine ⟨?_, herase, hc⟩
      intro j hj
      rcases List.mem_append.mp hj with hj | hj
      · exact ha j (List.mem_append.mpr (Or.inl hj))
      · rcases List.mem_append.mp hj with hj | hj
        · exact ha j (List.mem_append.mpr (Or.inr hj))
        · have hjeq : j = { s.inFlight.getD i dfltRequest with
              result := (s.inFlight.getD i dfltRequest).result ++
                [(classifyOutcome res t s.tracker).error.getD
                  (ErrRecord.exc "")] } := by simpa using hj
          subst hjeq
          exact ⟨show (1 : Int) ≤ (s.inFlight.getD i dfltRequest).attempts_left
            by omega, hr2⟩
    · -- finalized as failed
      refine ⟨?_, herase, ?_⟩
      · intro j hj
        exact ha j hj
      · intro c hcmem
        rcases List.mem_append.mp hcmem with hcmem | hcmem
        · exact hc c hcmem
        · have hceq : c = (s.inFlight.getD i dfltRequest).dispatchCount := by
            simpa using hcmem
          subst hceq
          omega
  · -- finalized as succeeded
    refine ⟨?_, herase, ?_⟩
    · intro j hj
      exact ha j hj
    · intro c hcmem
      rcases List.mem_append.mp hcmem with hcmem | hcmem
      · exact hc c hcmem
      · have hceq : c = (s.inFlight.getD i dfltRequest).dispatchCount := by
          simpa using hcmem
        subst hceq
        omega

theorem invAtt_step (cfg : Config) (s s' : SysState)
    (hmax : 1 ≤ cfg.max_attempts) (h : InvAttempts cfg s)
    (hs : Step cfg s s') : InvAttempts cfg s' := by
  cases hs with
  | iter hm =>
    have h0 : InvAttempts cfg (refillPhase cfg (fetchPhase cfg s)) :=
      invAtt_fetch cfg s hmax h
    have h1 := invAtt_dispatch cfg _ h0
    unfold iterStep
    dsimp only
    split
    · exact h1
    · exact h1
  | wakeMicro w hm =>
    unfold wakeMicroStep
    dsimp only
    split
    · exact h
    · exact h
  | wakeCool w hm => exact h
  | complete w i res t hm hi h1 h2 => exact invAtt_complete cfg s i res t hi h

theorem reach_invAttempts (cfg : Config) (src : List JObject) (t0 : ℚ)
    (s : SysState) (hmax : 1 ≤ cfg.max_attempts)
    (hs : Reach cfg (initState cfg src t0) s) : InvAttempts cfg s := by
  induction hs with
  | refl =>
    refine ⟨?_, ?_, ?_⟩ <;> intro j hj <;> simp [initState] at hj
  | tail _ hstep ih => exact invAtt_step cfg _ _ hmax ih hstep

/-- The admission guard of loop phase 3: one request-unit and the job's token
cost must both be affordable. -/
def dispatchGuard (u : SysState) (req : APIRequest) : Prop :=
  1 ≤ u.available_request_capacity ∧
    req.token_consumption ≤ u.available_token_capacity

instance (u : SysState) (req : APIRequest) : Decidable (dispatchGuard u req) :=
  inferInstanceAs (Decidable (_ ∧ _))

/-- The state after an admission: both capacities consumed, one attempt
spent, the job moved from held to in-flight, the admission time recorded. -/
def dispatchedState (u : SysState) (req : APIRequest) : SysState :=
  { u with
    available_request_capacity := u.available_request_capacity - 1
    available_token_capacity :=
      u.available_token_capacity - req.token_consumption
    next_request := none
    inFlight := u.inFlight ++
      [{ req with attempts_left := req.attempts_left - 1,
                  dispatchCount := req.dispatchCount + 1 }]
    admissionTimes := u.admissionTimes ++ [u.clock] }

theorem dispatchPhase_eq (u : SysState) (req : APIRequest)
    (h : u.next_request = some req) :
    dispatchPhase u =
      if dispatchGuard u req then dispatchedState u req else u := by
  unfold dispatchPhase dispatchGuard dispatchedState
  rw [h]

theorem dispatch_cases (u : SysState) :
    (u.next_request = none ∧ dispatchPhase u = u) ∨
    (∃ req, u.next_request = some req ∧ dispatchGuard u req ∧
      dispatchPhase u = dispatchedState u req) ∨
    (∃ req, u.next_request = some req ∧ ¬dispatchGuard u req ∧
      dispatchPhase u = u) := by
  rcases hn : u.next_request with _ | req
  · exact Or.inl ⟨rfl, by rw [dispatchPhase]; rw [hn]⟩
  · by_cases hg : dispatchGuard u req
    · exact Or.inr (Or.inl ⟨req, rfl, hg, by rw [dispatchPhase_eq u req hn, if_pos hg]⟩)
    · exact Or.inr (Or.inr ⟨req, rfl, hg, by rw [dispatchPhase_eq u req hn, if_neg hg]⟩)

theorem fetch_cases (cfg : Config) (u : SysState) :
    (∃ req, u.next_request = some req ∧ fetchPhase cfg u = u) ∨
    (∃ req rest, u.next_request = none ∧ u.retry_queue = req :: rest ∧
      fetchPhase cfg u = { u with next_request := some req, retry_queue := rest }) ∨
    (∃ line rest, u.next_request = none ∧ u.retry_queue = [] ∧
      u.file_not_finished = true ∧ u.source = line :: rest ∧
      fetchPhase cfg u = { u with
        next_request := some
          { task_id := u.task_id_ctr
            request_json := removeKey line "metadata"
            token_consumption := cfg.estimator line
            attempts_left := cfg.max_attempts
            metadata := lookupKey line "metadata"
            result := []
            dispatchCount := 0 }
        task_id_ctr := u.task_id_ctr + 1
        source := rest
        tracker := { u.tracker with
          num_tasks_started := u.tracker.num_tasks_started + 1
          num_tasks_in_progress := u.tracker.num_tasks_in_progress + 1 } }) ∨
    (u.next_request = none ∧ u.retry_queue = [] ∧ u.file_not_finished = true ∧
      u.source = [] ∧
      fetchPhase cfg u = { u with file_not_finished := false }) ∨
    (u.next_request = none ∧ u.retry_queue = [] ∧
      u.file_not_finished = false ∧ fetchPhase cfg u = u) := by
  rcases hn : u.next_request with _ | req
  · rcases hq : u.retry_queue with _ | ⟨req, rest⟩
    · rcases hf : u.file_not_finished with _ | _
      · refine Or.inr (Or.inr (Or.inr (Or.inr ⟨rfl, rfl, rfl, ?_⟩)))
        unfold fetchPhase
        rw [hn, hq, hf]
        rfl
      · rcases hs : u.source with _ | ⟨line, rest⟩
        · refine Or.inr (Or.inr (Or.inr (Or.inl ⟨rfl, rfl, rfl, rfl, ?_⟩)))
          unfold fetchPhase
          rw [hn, hq, hf, hs]
          rfl
        · refine Or.inr (Or.inr (Or.inl ⟨line, rest, rfl, rfl, rfl, rfl, ?_⟩))
          unfold fetchPhase
          rw [hn, hq, hf, hs]
          rfl
    · refine Or.inr (Or.inl ⟨req, rest, rfl, rfl, ?_⟩)
      unfold fetchPhase
      rw [hn, hq]
  · refine Or.inl ⟨req, rfl, ?_⟩
    unfold fetchPhase
    rw [hn]

theorem countJobs_eq_zero (s : SysState) (h : countJobs s = 0) :
    s.next_request = none ∧ s.retry_queue = [] ∧ s.inFlight = [] := by
  unfold countJobs heldCount at h
  rcases hnr : s.next_request with _ | req
  · rw [hnr] at h
    simp only [Option.isSome_none, Bool.false_eq_true, if_false] at h
    exact ⟨rfl, List.length_eq_zero.mp (by omega),
      List.length_eq_zero.mp (by omega)⟩
  · rw [hnr] at h
    simp only [Option.isSome_some, if_true] at h
    omega

/-- The four exit conditions of claim C3, at the state of the break check:
source exhausted (flag cleared and no line left), retry queue empty, no job
held, nothing in flight. -/
def exitConditions (s : SysState) : Prop :=
  s.next_request = none ∧ s.retry_queue = [] ∧ s.inFlight = [] ∧
  s.file_not_finished = false ∧ s.source = []

theorem exit_break_iff (cfg : Config) (s : SysState) (hInv : InvCount0 s) :
    ((dispatchPhase (refillPhase cfg (fetchPhase cfg s))).tracker.num_tasks_in_progress
        = 0 ↔
      exitConditions (dispatchPhase (refillPhase cfg (fetchPhase cfg s)))) := by
  have hInv1 : InvCount0 (fetchPhase cfg s) := invCount0_fetch cfg s hInv
  have hInv2 : InvCount0 (refillPhase cfg (fetchPhase cfg s)) := hInv1
  have hInv3 :
      InvCount0 (dispatchPhase (refillPhase cfg (fetchPhase cfg s))) :=
    invCount0_dispatch _ hInv2
  constructor
  · intro h0
    have hcj :
        countJobs (dispatchPhase (refillPhase cfg (fetchPhase cfg s))) = 0 := by
      have h := hInv3.2.1
      rw [h0] at h
      exact_mod_cast h.symm
    obtain ⟨hn3, hr3, hi3⟩ := countJobs_eq_zero _ hcj
    refine ⟨hn3, hr3, hi3, ?_⟩
    rcases dispatch_cases (refillPhase cfg (fetchPhase cfg s)) with
      ⟨hn2, he⟩ | ⟨req, hn2, hg, he⟩ | ⟨req, hn2, hg, he⟩
    · rw [he] at hn3 ⊢
      have hn1 : (fetchPhase cfg s).next_request = none := hn3
      show (fetchPhase cfg s).file_not_finished = false ∧
        (fetchPhase cfg s).source = []
      rcases fetch_cases cfg s with
        ⟨r, hnr, he1⟩ | ⟨r, rest, hnr, hqr, he1⟩ |
        ⟨line, rest, hnr, hqr, hfr, hsr, he1⟩ |
        ⟨hnr, hqr, hfr, hsr, he1⟩ | ⟨hnr, hqr, hfr, he1⟩
      · rw [he1] at hn1
        simp [hnr] at hn1
      · rw [he1] at hn1
        simp at hn1
      · rw [he1] at hn1
        simp at hn1
      · rw [he1]
        exact ⟨rfl, hsr⟩
      · rw [he1]
        exact ⟨hfr, hInv.2.2.1 hfr⟩
    · rw [he] at hi3
      simp [dispatchedState] at hi3
    · rw [he] at hn3
      rw [hn2] at hn3
      cases hn3
  · intro hex
    obtain ⟨hn3, hr3, hi3, hf3, hs3⟩ := hex
    rw [hInv3.2.1]
    have hcz :
        countJobs (dispatchPhase (refillPhase cfg (fetchPhase cfg s))) = 0 := by
      simp [countJobs, heldCount, hn3, hr3, hi3]
    exact_mod_cast hcz

/-- Claim C3: the admission loop terminates (its break is taken) exactly when
the input source is exhausted, the retry queue is empty, no job is held
awaiting capacity, and no dispatcher call is in flight — both directions of
the `num_tasks_in_progress == 0` break check, at the break-check state. -/
theorem c3_termination (cfg : Config) (src : List JObject) (t0 : ℚ)
    (s : SysState) (hs : Reach cfg (initState cfg src t0) s)
    (hready : s.mode = Mode.ready) :
    ((iterStep cfg s).mode = Mode.drained ↔
      exitConditions (dispatchPhase (refillPhase cfg (fetchPhase cfg s)))) := by
  have hiff := exit_break_iff cfg s (reach_invCount cfg src t0 s hs).1
  clear hready
  unfold iterStep
  dsimp only
  split
  · rename_i hz
    exact ⟨fun _ => hiff.mp hz, fun _ => rfl⟩
  · rename_i hz
    refine ⟨fun hc => ?_, fun hex => absurd (hiff.mpr hex) hz⟩
    simp at hc

/-- A fixed benign configuration used by the witnesses. -/
def cfgW : Config :=
  { max_requests_per_minute := 100, max_tokens_per_minute := 100,
    max_attempts := 5, estimator := fun _ => 0 }

theorem c3_termination_witness :
    Reach cfgW (initState cfgW [] 0) (initState cfgW [] 0) ∧
    (initState cfgW [] 0).mode = Mode.ready ∧
    ((iterStep cfgW (initState cfgW [] 0)).mode = Mode.drained ↔
      exitConditions
        (dispatchPhase (refillPhase cfgW (fetchPhase cfgW (initState cfgW [] 0))))) :=
  ⟨Relation.ReflTransGen.refl, rfl,
    c3_termination cfgW [] 0 (initState cfgW [] 0) Relation.ReflTransGen.refl rfl⟩

/-- Claim C4: at every observation point (state between atomic steps of the
cooperative scheduler), `started = succeeded + failed + in_progress`; at
completion (`drained`), `in_progress = 0` and `started = succeeded + failed`. -/
theorem c4_counter_invariant (cfg : Config) (src : List JObject) (t0 : ℚ)
    (s : SysState) (hs : Reach cfg (initState cfg src t0) s) :
    s.tracker.num_tasks_started =
        s.tracker.num_tasks_succeeded + s.tracker.num_tasks_failed +
          s.tracker.num_tasks_in_progress ∧
    (s.mode = Mode.drained →
      s.tracker.num_tasks_in_progress = 0 ∧
      s.tracker.num_tasks_started =
        s.tracker.num_tasks_succeeded + s.tracker.num_tasks_failed) := by
  obtain ⟨⟨h1, h2, h3, h4, h5⟩, h6⟩ := reach_invCount cfg src t0 s hs
  refine ⟨h1, fun hd => ?_⟩
  have hz := h6 hd
  exact ⟨hz, by omega⟩

theorem c4_counter_invariant_witness :
    Reach cfgW (initState cfgW [] 0) (initState cfgW [] 0) ∧
    ((initState cfgW [] 0).tracker.num_tasks_started =
        (initState cfgW [] 0).tracker.num_tasks_succeeded +
          (initState cfgW [] 0).tracker.num_tasks_failed +
          (initState cfgW [] 0).tracker.num_tasks_in_progress ∧
      ((initState cfgW [] 0).mode = Mode.drained →
        (initState cfgW [] 0).tracker.num_tasks_in_progress = 0 ∧
        (initState cfgW [] 0).tracker.num_tasks_started =
          (initState cfgW [] 0).tracker.num_tasks_succeeded +
            (initState cfgW [] 0).tracker.num_tasks_failed)) :=
  ⟨Relation.ReflTransGen.refl,
    c4_counter_invariant cfgW [] 0 (initState cfgW [] 0)
      Relation.ReflTransGen.refl⟩

/-- Bounds part of claim C2. -/
def C2Concl (cfg : Config) (s : SysState) : Prop :=
  (0 ≤ s.available_request_capacity ∧
    s.available_request_capacity ≤ cfg.max_requests_per_minute) ∧
  (0 ≤ s.available_token_capacity ∧
    s.available_token_capacity ≤ cfg.max_tokens_per_minute)

/-- Mechanism part of claim C2: refills follow the clamped
elapsed-time-proportional formula, completions and wakes never change
capacities, and a dispatch consumes exactly one request-unit and the job's
token cost. -/
def C2Mechanism (cfg : Config) : Prop :=
  (∀ u : SysState,
    (refillPhase cfg u).available_request_capacity =
      min (u.available_request_capacity +
        cfg.max_requests_per_minute * (u.clock - u.last_update_time) / 60)
        cfg.max_requests_per_minute ∧
    (refillPhase cfg u).available_token_capacity =
      min (u.available_token_capacity +
        cfg.max_tokens_per_minute * (u.clock - u.last_update_time) / 60)
        cfg.max_tokens_per_minute) ∧
  (∀ u i res t,
    (completeStep cfg u i res t).available_request_capacity =
        u.available_request_capacity ∧
    (completeStep cfg u i res t).available_token_capacity =
        u.available_token_capacity) ∧
  (∀ u w,
    (wakeMicroStep cfg u w).available_request_capacity =
        u.available_request_capacity ∧
    (wakeMicroStep cfg u w).available_token_capacity =
        u.available_token_capacity) ∧
  (∀ u req, u.next_request = some req → dispatchGuard u req →
    dispatchPhase u = dispatchedState u req ∧
    (dispatchedState u req).available_request_capacity =
      u.available_request_capacity - 1 ∧
    (dispatchedState u req).available_token_capacity =
      u.available_token_capacity - req.token_consumption)

/-- Claim C2: throughout a run with a sane configuration (non-negative
limits and a non-negative cost estimator, the spec's caller contract), both
capacities stay within `[0, limit]`; refill follows the clamped formula and
capacity decreases only at admission, by the guarded amounts. -/
theorem c2_capacity_bounds (cfg : Config) (src : List JObject) (t0 : ℚ)
    (s : SysState) (hcfg : CfgOk cfg)
    (hs : Reach cfg (initState cfg src t0) s) :
    C2Concl cfg s ∧ C2Mechanism cfg := by
  obtain ⟨_, hc1, hc2, hc3, hc4, _⟩ := reach_invTC cfg src t0 s hcfg hs
  refine ⟨⟨⟨hc1, hc2⟩, ⟨hc3, hc4⟩⟩, ?_, ?_, ?_, ?_⟩
  · exact fun u => ⟨rfl, rfl⟩
  · intro u i res t
    unfold completeStep
    dsimp only
    split
    · split
      · exact ⟨rfl, rfl⟩
      · exact ⟨rfl, rfl⟩
    · exact ⟨rfl, rfl⟩
  · intro u w
    unfold wakeMicroStep
    dsimp only
    split
    · exact ⟨rfl, rfl⟩
    · exact ⟨rfl, rfl⟩
  · intro u req hsome hg
    exact ⟨by rw [dispatchPhase_eq u req hsome, if_pos hg], rfl, rfl⟩

theorem c2_capacity_bounds_witness :
    CfgOk cfgW ∧ Reach cfgW (initState cfgW [] 0) (initState cfgW [] 0) ∧
    (C2Concl cfgW (initState cfgW [] 0) ∧ C2Mechanism cfgW) :=
  ⟨⟨by norm_num [cfgW], by norm_num [cfgW], by norm_num [cfgW],
      fun line => le_refl 0⟩,
    Relation.ReflTransGen.refl,
    c2_capacity_bounds cfgW [] 0 (initState cfgW [] 0)
      ⟨by norm_num [cfgW], by norm_num [cfgW], by norm_num [cfgW],
        fun line => le_refl 0⟩
      Relation.ReflTransGen.refl⟩

/-- The `after_finishing` method (`parareq.py`, lines 322-340), reduced to its effect on
the result file's path: when at least one task failed, the file is renamed
with every occurrence of `.jsonl` replaced by `_with_errors.jsonl`
(`str.replace` semantics); otherwise it is left alone. -/
def after_finishing_path (save_filepath : String) (st : StatusTracker) : String :=
  if 0 < st.num_tasks_failed then
    pyReplace save_filepath ".jsonl" "_with_errors.jsonl"
  else save_filepath

/-- Claim C9: after the main loop completes, the result file is renamed by
replacing `.jsonl` with `_with_errors.jsonl` exactly when some job was
finalized as failed (equivalently, when the log holds a failure line), and is
left at the configured save path otherwise. -/
theorem c9_rename (cfg : Config) (src : List JObject) (t0 : ℚ) (s : SysState)
    (save : String) (hs : Reach cfg (initState cfg src t0) s)
    (hdrained : s.mode = Mode.drained) :
    after_finishing_path save s.tracker =
      if 0 < s.resultLog.countP isFailureLine then
        pyReplace save ".jsonl" "_with_errors.jsonl"
      else save := by
  have h4 := (reach_invCount cfg src t0 s hs).1.2.2.2.1
  unfold after_finishing_path
  by_cases hpos : 0 < s.resultLog.countP isFailureLine
  · rw [if_pos hpos, if_pos (by rw [h4]; exact_mod_cast hpos)]
  · rw [if_neg hpos, if_neg (by rw [h4]; exact_mod_cast hpos)]

theorem c9_rename_witness :
    Reach cfgW (initState cfgW [] 0) (iterStep cfgW (initState cfgW [] 0)) ∧
    (iterStep cfgW (initState cfgW [] 0)).mode = Mode.drained ∧
    after_finishing_path "results.jsonl"
        (iterStep cfgW (initState cfgW [] 0)).tracker =
      (if 0 < ((iterStep cfgW (initState cfgW [] 0)).resultLog.countP
          isFailureLine) then
        pyReplace "results.jsonl" ".jsonl" "_with_errors.jsonl"
      else "results.jsonl") :=
  ⟨Relation.ReflTransGen.single (Step.iter _ rfl), by decide,
    c9_rename cfgW [] 0 (iterStep cfgW (initState cfgW [] 0)) "results.jsonl"
      (Relation.ReflTransGen.single (Step.iter _ rfl)) (by decide)⟩

/-- Claim C6's per-iteration dispatch contract at a capacity-check state `u`
(the state after fetch and refill): a held job is dispatched exactly when
one request-unit and its token cost are affordable; on dispatch both
capacities are consumed, `attempts_left` is decremented, the job goes in
flight and the held slot is cleared. -/
def C6Concl (u : SysState) : Prop :=
  ∀ req, u.next_request = some req →
    (((dispatchPhase u).next_request = none) ↔ dispatchGuard u req) ∧
    (dispatchGuard u req → dispatchPhase u = dispatchedState u req) ∧
    (¬dispatchGuard u req → dispatchPhase u = u)

theorem dispatch_contract (u : SysState) : C6Concl u := by
  intro req hsome
  have he := dispatchPhase_eq u req hsome
  by_cases hg : dispatchGuard u req
  · rw [he, if_pos hg]
    refine ⟨⟨fun _ => hg, fun _ => rfl⟩, fun _ => rfl, fun hng => absurd hg hng⟩
  · rw [he, if_neg hg]
    refine ⟨⟨fun hn => ?_, fun hgg => absurd hgg hg⟩,
      fun hgg => absurd hgg hg, fun _ => rfl⟩
    rw [hsome] at hn
    cases hn

/-- Claim C6: in each loop iteration holding a job, dispatch happens exactly
when request capacity ≥ 1 and token capacity ≥ the job's cost, with the
stated effects; and (when the run's configuration is sane, so token capacity
is never negative) a job of cost 0 is blocked only by the request bucket. -/
theorem c6_dispatch_guard (cfg : Config) (src : List JObject) (t0 : ℚ)
    (s : SysState) (hcfg : CfgOk cfg)
    (hs : Reach cfg (initState cfg src t0) s) :
    C6Concl (refillPhase cfg (fetchPhase cfg s)) ∧
    (∀ req,
      (refillPhase cfg (fetchPhase cfg s)).next_request = some req →
      req.token_consumption = 0 →
      (((dispatchPhase (refillPhase cfg (fetchPhase cfg s))).next_request
          = none) ↔
        1 ≤ (refillPhase cfg (fetchPhase cfg s)).available_request_capacity)) := by
  have hTC := invTC_refill cfg _ hcfg
    (invTC_fetch cfg s hcfg (reach_invTC cfg src t0 s hcfg hs))
  refine ⟨dispatch_contract _, ?_⟩
  intro req hsome hzero
  have hguard := (dispatch_contract _ req hsome).1
  rw [hguard]
  unfold dispatchGuard
  rw [hzero]
  have htok : 0 ≤ (refillPhase cfg (fetchPhase cfg s)).available_token_capacity :=
    hTC.2.2.2.1
  constructor
  · exact fun h => h.1
  · exact fun h => ⟨h, htok⟩

theorem c6_dispatch_guard_witness :
    CfgOk cfgW ∧ Reach cfgW (initState cfgW [] 0) (initState cfgW [] 0) ∧
    (C6Concl (refillPhase cfgW (fetchPhase cfgW (initState cfgW [] 0))) ∧
    (∀ req,
      (refillPhase cfgW (fetchPhase cfgW (initState cfgW [] 0))).next_request
          = some req →
      req.token_consumption = 0 →
      (((dispatchPhase (refillPhase cfgW (fetchPhase cfgW
            (initState cfgW [] 0)))).next_request = none) ↔
        1 ≤ (refillPhase cfgW (fetchPhase cfgW
            (initState cfgW [] 0))).available_request_capacity))) :=
  ⟨⟨by norm_num [cfgW], by norm_num [cfgW], by norm_num [cfgW],
      fun line => le_refl 0⟩,
    Relation.ReflTransGen.refl,
    c6_dispatch_guard cfgW [] 0 (initState cfgW [] 0)
      ⟨by norm_num [cfgW], by norm_num [cfgW], by norm_num [cfgW],
        fun line => le_refl 0⟩
      Relation.ReflTransGen.refl⟩

/-- Completion exactness of claim C1: when the classified outcome is an
error, the job is pushed back exactly when `attempts_left > 0` after the
dispatch-time decrement, and finalized as failed exactly when it is 0. -/
def CompletionExactness (cfg : Config) (s : SysState) : Prop :=
  ∀ i res t, i < s.inFlight.length →
    errIsTruthy (classifyOutcome res t s.tracker).error = true →
    (((completeStep cfg s i res t).retry_queue.length =
        s.retry_queue.length + 1) ↔
      0 < (s.inFlight.getD i dfltRequest).attempts_left) ∧
    (((completeStep cfg s i res t).tracker.num_tasks_failed =
        s.tracker.num_tasks_failed + 1) ↔
      (s.inFlight.getD i dfltRequest).attempts_left = 0)

/-- Conclusion of the amended claim C1: dispatch-attempt counts of alive and
finalized jobs are within `[0, max_attempts]`, each dispatch decrements
`attempts_left` once, and failed completions are re-queued/finalized exactly
by the `attempts_left > 0` / `= 0` dichotomy. -/
def C1Concl (cfg : Config) (s : SysState) : Prop :=
  (∀ j ∈ allJobs s,
      0 ≤ (j.dispatchCount : Int) ∧ (j.dispatchCount : Int) ≤ cfg.max_attempts) ∧
  (∀ c ∈ s.finishedDispatchCounts,
      0 ≤ (c : Int) ∧ (c : Int) ≤ cfg.max_attempts) ∧
  (∀ req, s.next_request = some req → dispatchGuard s req →
      dispatchPhase s = dispatchedState s req) ∧
  CompletionExactness cfg s

/-- Claim C1 (amended with `max_attempts ≥ 1`): every job is dispatched
between 0 and `max_attempts` times; `attempts_left` is decremented once per
dispatch; a failed job is re-queued exactly when `attempts_left > 0` after
the decrement and finalized as failed exactly when it reaches 0.  (The
unamended claim fails for `max_attempts ≤ 0`: the code re-queues on
`attempts_left != 0`, and a negative value is truthy.) -/
theorem c1_retry_ceiling (cfg : Config) (src : List JObject) (t0 : ℚ)
    (s : SysState) (hmax : 1 ≤ cfg.max_attempts)
    (hs : Reach cfg (initState cfg src t0) s) : C1Concl cfg s := by
  obtain ⟨ha, hb, hc⟩ := reach_invAttempts cfg src t0 s hmax hs
  refine ⟨?_, ?_, ?_, ?_⟩
  · intro j hj
    rcases List.mem_append.mp hj with hj | hj
    · have := ha j hj
      constructor
      · positivity
      · omega
    · have := hb j hj
      constructor
      · positivity
      · omega
  · intro c hcm
    have := hc c hcm
    constructor
    · positivity
    · omega
  · intro req hsome hg
    rw [dispatchPhase_eq s req hsome, if_pos hg]
  · intro i res t hi herr
    have hreqmem : s.inFlight.getD i dfltRequest ∈ s.inFlight := by
      simp [List.getD, List.getElem?_eq_getElem hi]
    obtain ⟨hr1, hr2⟩ := hb _ hreqmem
    obtain ⟨cc1, cc2, cc3, cc4⟩ := classify_tracker_counts res t s.tracker
    unfold completeStep
    dsimp only
    rw [if_pos herr]
    split
    · rename_i hne
      have hne' : (s.inFlight.getD i dfltRequest).attempts_left ≠ 0 := hne
      constructor
      · constructor
        · intro _
          omega
        · intro _
          show (s.retry_queue ++ [_]).length = s.retry_queue.length + 1
          simp
      · constructor
        · intro hfe
          have hfe' : (classifyOutcome res t s.tracker).tracker.num_tasks_failed
              = s.tracker.num_tasks_failed + 1 := hfe
          rw [cc4] at hfe'
          omega
        · intro h0
          exact absurd h0 hne'
    · rename_i hne
      have h0 : (s.inFlight.getD i dfltRequest).attempts_left = 0 := by
        by_contra hco
        exact hne hco
      constructor
      · constructor
        · intro hlen
          have hlen' : s.retry_queue.length = s.retry_queue.length + 1 := hlen
          omega
        · intro hpos
          omega
      · constructor
        · intro _
          exact h0
        · intro _
          show (classifyOutcome res t s.tracker).tracker.num_tasks_failed + 1 =
            s.tracker.num_tasks_failed + 1
          rw [cc4]

theorem c1_retry_ceiling_witness :
    1 ≤ cfgW.max_attempts ∧
    Reach cfgW (initState cfgW [] 0) (initState cfgW [] 0) ∧
    C1Concl cfgW (initState cfgW [] 0) :=
  ⟨by norm_num [cfgW], Relation.ReflTransGen.refl,
    c1_retry_ceiling cfgW [] 0 (initState cfgW [] 0) (by norm_num [cfgW])
      Relation.ReflTransGen.refl⟩

/-- Whether the response carries the provider's error indicator (total
version of the code's membership test, for the spec-side classifier). -/
def hasErrorIndicator (resp : JValue) : Bool :=
  match pyInErrorCheck resp with
  | .ok b => b
  | .error _ => false

/-- Whether the response matches the provider's rate-limit signature (total
version of the code's substring test, for the spec-side classifier). -/
def isRateLimitSignature (resp : JValue) : Bool :=
  match rateLimitSigCheck resp with
  | .ok b => b
  | .error _ => false

/-- Modelled from the spec: the Dispatcher outcome taxonomy of spec §4.4 —
exactly one of success / rate-limit rejection / API-level error / transport
failure, with exactly the corresponding counter updates.  Second definition
written from the spec's words, to be compared with `classifyOutcome` (the
code's classification). -/
def specClassifyOutcome (res : Except String JValue) (now : ℚ)
    (st : StatusTracker) : ClassifyOut :=
  match res with
  | .error e =>
    { tracker := { st with num_other_errors := st.num_other_errors + 1 }
      error := some (ErrRecord.exc e), isRateLimit := false }
  | .ok resp =>
    if hasErrorIndicator resp then
      if isRateLimitSignature resp then
        { tracker := { st with
            time_of_last_rate_limit_error := now
            num_rate_limit_errors := st.num_rate_limit_errors + 1 }
          error := some (ErrRecord.resp resp), isRateLimit := true }
      else
        { tracker := { st with num_api_errors := st.num_api_errors + 1 }
          error := some (ErrRecord.resp resp), isRateLimit := false }
    else { tracker := st, error := none, isRateLimit := false }

/-- The response is shaped so that the code's two checks do not themselves
raise: the `"error" in response` membership test is defined, and, when an
error indicator is present, so is the rate-limit signature test (i.e. the
error field is an object whose `message`, if any, supports `in`).  This is
the well-formedness under which claim C7 is amended. -/
def classifiesCleanly (res : Except String JValue) : Prop :=
  ∀ resp, res = Except.ok resp →
    (∃ b, pyInErrorCheck resp = Except.ok b) ∧
    (pyInErrorCheck resp = Except.ok true →
      ∃ b, rateLimitSigCheck resp = Except.ok b)

/-- Claim C7 (amended with response well-formedness): on a well-formed
response, the code's classification agrees with the spec's four-way
taxonomy — each completed call falls in exactly one class and changes exactly
the corresponding counters (a rate-limit rejection also records its time).
Without the well-formedness hypothesis the claim fails: a malformed error
field makes the code increment `num_api_errors` and then also
`num_other_errors` (see the counterexample). -/
theorem c7_classification (res : Except String JValue) (now : ℚ)
    (st : StatusTracker) (h : classifiesCleanly res) :
    classifyOutcome res now st = specClassifyOutcome res now st := by
  rcases res with e | resp
  · rfl
  · obtain ⟨⟨b1, hb1⟩, h2⟩ := h resp rfl
    cases b1
    · simp [classifyOutcome, specClassifyOutcome, hasErrorIndicator, hb1]
    · obtain ⟨b2, hb2⟩ := h2 hb1
      cases b2
      · simp [classifyOutcome, specClassifyOutcome, hasErrorIndicator,
          isRateLimitSignature, hb1, hb2]
      · have harith : st.num_api_errors + 1 - 1 = st.num_api_errors := by omega
        simp [classifyOutcome, specClassifyOutcome, hasErrorIndicator,
          isRateLimitSignature, hb1, hb2, harith]

/-- A well-formed rate-limit rejection response, for the C7 witness. -/
def c7resp : JValue :=
  JValue.obj [("error", JValue.obj [("message", JValue.str "Rate limit reached")])]

theorem c7_classification_witness :
    classifiesCleanly (Except.ok c7resp) ∧
    classifyOutcome (Except.ok c7resp) 5 {} =
      specClassifyOutcome (Except.ok c7resp) 5 {} :=
  ⟨fun resp hresp => by
      cases hresp
      exact ⟨⟨true, rfl⟩, fun _ => ⟨true, rfl⟩⟩,
    c7_classification (Except.ok c7resp) 5 {}
      (fun resp hresp => by
        cases hresp
        exact ⟨⟨true, rfl⟩, fun _ => ⟨true, rfl⟩⟩)⟩

/-- A response whose error field is a bare string: the code counts it as an
API error and then its rate-limit check raises, so it is also counted as an
other-error. -/
def c7badResp : JValue := JValue.obj [("error", JValue.str "boom")]

/-- Claim C7 counterexample: the code's classification does not match the
spec's exactly-one-of-four taxonomy on every completed call — on
`{"error": "boom"}` the code increments both `num_api_errors` and
`num_other_errors` (the spec taxonomy increments only `num_api_errors`). -/
theorem c7_counterexample :
    ¬(∀ (res : Except String JValue) (now : ℚ) (st : StatusTracker),
        classifyOutcome res now st = specClassifyOutcome res now st) := by
  intro h
  have heq := h (Except.ok c7badResp) 0 {}
  have hcode : (classifyOutcome (Except.ok c7badResp) 0 {}).tracker.num_other_errors = 1 := by
    decide
  have hspec : (specClassifyOutcome (Except.ok c7badResp) 0 {}).tracker.num_other_errors = 0 := by
    decide
  rw [heq] at hcode
  omega

/-- The classes of start-up exceptions `APIRequestProcessor.__init__` can
raise (`parareq.py`, lines 146-157). -/
inductive InitError where
  | fileNotFound
  | typeErrorNonePath
  | fileExists
deriving DecidableEq

/-- The start-up checks of `APIRequestProcessor.__init__` (lines 146-157),
given which paths exist in the file system: a missing requests file raises
`FileNotFoundError`; then `Path(self.save_filepath)` is evaluated
unconditionally, so `save_filepath = None` raises `TypeError`; an existing
save file raises `FileExistsError`.  No file is opened and nothing is
dispatched here — the requests file is only opened later, in `run`. -/
def initProcessorCheck (requestsFileExists : Bool)
    (save_filepath : Option String) (saveFileExists : Bool) :
    Except InitError Unit :=
  if !requestsFileExists then Except.error InitError.fileNotFound
  else
    match save_filepath with
    | none => Except.error InitError.typeErrorNonePath
    | some _ =>
      if saveFileExists then Except.error InitError.fileExists
      else Except.ok ()

/-- The CLI wrapper's save-path fallback (`cli.py`, lines 81-82). -/
def cliResolveSave (save_arg : Option String) (requests_filepath : String) :
    String :=
  match save_arg with
  | none => pyReplace requests_filepath ".jsonl" "_results.jsonl"
  | some p => p

/-- Claim C10: constructing the processor with `save_filepath = None` always
raises during `__init__` (the unconditional `Path(save_filepath)` check does
not accept `None`; with a missing requests file the earlier
`FileNotFoundError` fires instead) — in the model, the start-up check never
returns `ok` for a `none` save path — while the documented
`{requests_filename}_results.jsonl` fallback is applied by the CLI wrapper
alone. -/
theorem c10_save_none_raises :
    (∀ re se : Bool, initProcessorCheck re none se =
      Except.error
        (if re then InitError.typeErrorNonePath else InitError.fileNotFound)) ∧
    (∀ p : String, cliResolveSave none p =
      pyReplace p ".jsonl" "_results.jsonl") := by
  refine ⟨?_, fun p => rfl⟩
  intro re se
  cases re <;> rfl

/-- Result-log contract of one completion (claim C8, amended): a non-terminal
retry writes nothing; an exhausted-retries failure writes exactly one line
holding the payload (metadata already removed), the ordered accumulated
failure records, and the metadata third element exactly when the job's
metadata is truthy; a success writes exactly one line with the response,
metadata likewise by truthiness. -/
def C8CompleteLog (cfg : Config) (s : SysState) (i : Nat)
    (res : Except String JValue) (t : ℚ) : Prop :=
  (errIsTruthy (classifyOutcome res t s.tracker).error = true →
    (s.inFlight.getD i dfltRequest).attempts_left ≠ 0 →
    (completeStep cfg s i res t).resultLog = s.resultLog) ∧
  (errIsTruthy (classifyOutcome res t s.tracker).error = true →
    (s.inFlight.getD i dfltRequest).attempts_left = 0 →
    (completeStep cfg s i res t).resultLog = s.resultLog ++
      [{ payload := (s.inFlight.getD i dfltRequest).request_json
         outcome := LogOutcome.failures
           ((s.inFlight.getD i dfltRequest).result ++
             [(classifyOutcome res t s.tracker).error.getD (ErrRecord.exc "")])
         metadata :=
           if metaTruthy (s.inFlight.getD i dfltRequest).metadata then
             (s.inFlight.getD i dfltRequest).metadata
           else none }]) ∧
  (errIsTruthy (classifyOutcome res t s.tracker).error = false →
    (completeStep cfg s i res t).resultLog = s.resultLog ++
      [{ payload := (s.inFlight.getD i dfltRequest).request_json
         outcome := LogOutcome.success (okValue res)
         metadata :=
           if metaTruthy (s.inFlight.getD i dfltRequest).metadata then
             (s.inFlight.getD i dfltRequest).metadata
           else none }]) ∧
  (errIsTruthy (classifyOutcome res t s.tracker).error = true →
    (s.inFlight.getD i dfltRequest).attempts_left ≠ 0 →
    (completeStep cfg s i res t).tracker.num_tasks_failed =
      s.tracker.num_tasks_failed ∧
    (completeStep cfg s i res t).tracker.num_tasks_succeeded =
      s.tracker.num_tasks_succeeded)

/-- Claim C8 (amended: the metadata element is included by Python truthiness
of the stored metadata, not by mere presence in the input record): each
completion writes exactly one line on a terminal outcome, in the stated
2-or-3-element shape, and none on a retry; loop iterations and wakes never
write lines. -/
theorem c8_result_log (cfg : Config) :
    (∀ s i res t, C8CompleteLog cfg s i res t) ∧
    (∀ u : SysState, (iterStep cfg u).resultLog = u.resultLog) ∧
    (∀ (u : SysState) (w : ℚ),
      (wakeMicroStep cfg u w).resultLog = u.resultLog) ∧
    (∀ (u : SysState) (w : ℚ), (wakeCoolStep u w).resultLog = u.resultLog) := by
  refine ⟨?_, ?_, ?_, ?_⟩
  · intro s i res t
    obtain ⟨cc1, cc2, cc3, cc4⟩ := classify_tracker_counts res t s.tracker
    refine ⟨?_, ?_, ?_, ?_⟩
    · intro herr hne
      unfold completeStep
      dsimp only
      rw [if_pos herr, if_pos hne]
    · intro herr h0
      unfold completeStep
      dsimp only
      rw [if_pos herr, if_neg (by simpa using h0)]
    · intro herr
      unfold completeStep
      dsimp only
      rw [if_neg (by simp [herr])]
    · intro herr hne
      unfold completeStep
      dsimp only
      rw [if_pos herr, if_pos hne]
      exact ⟨cc4, cc3⟩
  · intro u
    have h1 : (fetchPhase cfg u).resultLog = u.resultLog := by
      unfold fetchPhase
      split
      · rfl
      · split
        · rfl
        · split
          · split <;> rfl
          · rfl
    have h2 : (dispatchPhase (refillPhase cfg (fetchPhase cfg u))).resultLog =
        u.resultLog := by
      rcases dispatch_cases (refillPhase cfg (fetchPhase cfg u)) with
        ⟨_, he⟩ | ⟨req, _, _, he⟩ | ⟨req, _, _, he⟩
      · rw [he]
        exact h1
      · rw [he]
        exact h1
      · rw [he]
        exact h1
    unfold iterStep
    dsimp only
    split
    · exact h2
    · exact h2
  · intro u w
    unfold wakeMicroStep
    dsimp only
    split
    · rfl
    · rfl
  · intro u w
    rfl

theorem c8_result_log_witness :
    errIsTruthy (classifyOutcome (Except.error "boom") 0
        (initState cfgW [] 0).tracker).error = true ∧
    C8CompleteLog cfgW (initState cfgW [] 0) 0 (Except.error "boom") 0 :=
  ⟨rfl, (c8_result_log cfgW).1 (initState cfgW [] 0) 0 (Except.error "boom") 0⟩

/-- Configuration of the C8 counterexample run: dummy zero-cost estimator. -/
def cfgC8 : Config :=
  { max_requests_per_minute := 100, max_tokens_per_minute := 100,
    max_attempts := 5, estimator := fun _ => 0 }

/-- Input of the C8 counterexample run: one record that does contain the
`metadata` key, with the falsy value `{}`. -/
def srcC8 : List JObject :=
  [[("model", JValue.str "m"), ("metadata", JValue.obj [])]]

/-- The C8 counterexample job after its admission: one attempt spent,
metadata popped as the falsy `{}`. -/
def c8job : APIRequest :=
  { task_id := 0, request_json := [("model", JValue.str "m")],
    token_consumption := 0, attempts_left := 4,
    metadata := some (JValue.obj []), result := [], dispatchCount := 1 }

/-- The C8 counterexample run state after its first loop iteration. -/
def c8s1 : SysState :=
  { next_request := none, file_not_finished := true, source := [],
    retry_queue := [], task_id_ctr := 1,
    available_request_capacity := 99, available_token_capacity := 100,
    last_update_time := 100,
    tracker := { num_tasks_started := 1, num_tasks_in_progress := 1 },
    inFlight := [c8job], resultLog := [], clock := 100,
    mode := Mode.microSleep (100 + 1 / 1000),
    admissionTimes := [100], rejectionTimes := [],
    finishedDispatchCounts := [] }

/-- The result line written by the C8 counterexample run: no metadata
element although the input record carried the key. -/
def c8line : LogLine :=
  { payload := [("model", JValue.str "m")],
    outcome := LogOutcome.success (JValue.obj []), metadata := none }

/-- The C8 counterexample run state after its job completed successfully. -/
def c8s2 : SysState :=
  { next_request := none, file_not_finished := true, source := [],
    retry_queue := [], task_id_ctr := 1,
    available_request_capacity := 99, available_token_capacity := 100,
    last_update_time := 100,
    tracker := { num_tasks_started := 1, num_tasks_in_progress := 0,
                 num_tasks_succeeded := 1 },
    inFlight := [], resultLog := [c8line], clock := 100,
    mode := Mode.microSleep (100 + 1 / 1000),
    admissionTimes := [100], rejectionTimes := [],
    finishedDispatchCounts := [1] }

theorem c8_lookup :
    lookupKey [("model", JValue.str "m"), ("metadata", JValue.obj [])]
      "metadata" = some (JValue.obj []) := rfl

theorem c8_remove :
    removeKey [("model", JValue.str "m"), ("metadata", JValue.obj [])]
      "metadata" = [("model", JValue.str "m")] := rfl

theorem c8s1_eq : iterStep cfgC8 (initState cfgC8 srcC8 100) = c8s1 := by
  norm_num [iterStep, dispatchPhase, refillPhase, fetchPhase, initState,
    cfgC8, srcC8, c8_lookup, c8_remove, c8s1, c8job]

theorem c8s2_eq :
    completeStep cfgC8 c8s1 0 (Except.ok (JValue.obj [])) 100 = c8s2 := by
  norm_num [completeStep, classifyOutcome, pyInErrorCheck, errIsTruthy,
    metaTruthy, JValue.truthy, okValue, c8s1, c8s2, c8job, c8line,
    dfltRequest, List.getD, List.eraseIdx]

/-- Claim C8 counterexample: `metadata` is not omitted exactly when absent
from the input record — a run over a record that contains `"metadata": {}`
(present but falsy) finishes with a 2-element result line (no metadata),
because the code tests `if self.metadata:` (truthiness). -/
theorem c8_counterexample :
    ∃ s, Reach cfgC8 (initState cfgC8 srcC8 100) s ∧
      ∃ line ∈ s.resultLog,
        line.metadata = none ∧
        ∃ rec ∈ srcC8, lookupKey rec "metadata" ≠ none ∧
          line.payload = removeKey rec "metadata" := by
  refine ⟨c8s2, ?_, ?_⟩
  · have h1 : Step cfgC8 (initState cfgC8 srcC8 100) c8s1 :=
      c8s1_eq ▸ Step.iter _ rfl
    have h2 : Step cfgC8 c8s1 c8s2 :=
      c8s2_eq ▸ Step.complete c8s1 (100 + 1 / 1000) 0
        (Except.ok (JValue.obj [])) 100 rfl (by decide)
        (by norm_num [c8s1]) (by norm_num)
    exact Relation.ReflTransGen.tail (Relation.ReflTransGen.single h1) h2
  · refine ⟨c8line, ?_, rfl, ?_⟩
    · show c8line ∈ c8s2.resultLog
      rw [show c8s2.resultLog = [c8line] from rfl]
      exact List.mem_singleton.mpr rfl
    · refine ⟨[("model", JValue.str "m"), ("metadata", JValue.obj [])],
        by simp [srcC8], ?_, rfl⟩
      intro hc
      simp [lookupKey] at hc

/-- Configuration of the C1 counterexample run: `max_attempts = 0`. -/
def cfgC1 : Config :=
  { max_requests_per_minute := 100, max_tokens_per_minute := 100,
    max_attempts := 0, estimator := fun _ => 0 }

/-- Input of the C1 counterexample run. -/
def srcC1 : List JObject := [[("input", JValue.str "x")]]

/-- The C1 counterexample job after its (first!) dispatch with
`max_attempts = 0`: `attempts_left` is already negative. -/
def c1job : APIRequest :=
  { task_id := 0, request_json := [("input", JValue.str "x")],
    token_consumption := 0, attempts_left := -1, metadata := none,
    result := [], dispatchCount := 1 }

/-- The C1 counterexample job after its failed attempt was re-queued. -/
def c1job2 : APIRequest :=
  { task_id := 0, request_json := [("input", JValue.str "x")],
    token_consumption := 0, attempts_left := -1, metadata := none,
    result := [ErrRecord.exc "boom"], dispatchCount := 1 }

/-- The C1 counterexample run state after its first loop iteration. -/
def c1s1 : SysState :=
  { next_request := none, file_not_finished := true, source := [],
    retry_queue := [], task_id_ctr := 1,
    available_request_capacity := 99, available_token_capacity := 100,
    last_update_time := 100,
    tracker := { num_tasks_started := 1, num_tasks_in_progress := 1 },
    inFlight := [c1job], resultLog := [], clock := 100,
    mode := Mode.microSleep (100 + 1 / 1000),
    admissionTimes := [100], rejectionTimes := [],
    finishedDispatchCounts := [] }

/-- The C1 counterexample run state after the failed attempt: the job is
back on the retry queue despite having no attempts left. -/
def c1s2 : SysState :=
  { next_request := none, file_not_finished := true, source := [],
    retry_queue := [c1job2], task_id_ctr := 1,
    available_request_capacity := 99, available_token_capacity := 100,
    last_update_time := 100,
    tracker := { num_tasks_started := 1, num_tasks_in_progress := 1,
                 num_other_errors := 1 },
    inFlight := [], resultLog := [], clock := 100,
    mode := Mode.microSleep (100 + 1 / 1000),
    admissionTimes := [100], rejectionTimes := [],
    finishedDispatchCounts := [] }

theorem c1s1_eq : iterStep cfgC1 (initState cfgC1 srcC1 100) = c1s1 := by
  norm_num [iterStep, dispatchPhase, refillPhase, fetchPhase, initState,
    cfgC1, srcC1, lookupKey, removeKey, c1s1, c1job]
  exact ⟨by decide, fun h => absurd h (by decide)⟩

theorem c1s2_eq :
    completeStep cfgC1 c1s1 0 (Except.error "boom") 100 = c1s2 := by
  norm_num [completeStep, classifyOutcome, errIsTruthy, ErrRecord.truthy,
    c1s1, c1s2, c1job, c1job2, dfltRequest, List.getD, List.eraseIdx]

/-- Claim C1 counterexample: with retry ceiling `max_attempts = 0` a job is
nevertheless dispatched (the capacity check alone gates dispatch), and after
the failed attempt `attempts_left = -1` is truthy, so the job is re-queued —
its dispatch count already exceeds `max_attempts`, and it will be
re-dispatched without bound. -/
theorem c1_counterexample :
    ∃ s, Reach cfgC1 (initState cfgC1 srcC1 100) s ∧
      ∃ j ∈ allJobs s, cfgC1.max_attempts < (j.dispatchCount : Int) := by
  refine ⟨c1s2, ?_, ?_⟩
  · have h1 : Step cfgC1 (initState cfgC1 srcC1 100) c1s1 :=
      c1s1_eq ▸ Step.iter _ rfl
    have h2 : Step cfgC1 c1s1 c1s2 :=
      c1s2_eq ▸ Step.complete c1s1 (100 + 1 / 1000) 0 (Except.error "boom")
        100 rfl (by decide) (by norm_num [c1s1]) (by norm_num)
    exact Relation.ReflTransGen.tail (Relation.ReflTransGen.single h1) h2
  · refine ⟨c1job2, ?_, ?_⟩
    · show c1job2 ∈ allJobs c1s2
      rw [show allJobs c1s2 = [c1job2] from rfl]
      exact List.mem_singleton.mpr rfl
    · show cfgC1.max_attempts < ((1 : Nat) : Int)
      decide

theorem complete_frame (cfg : Config) (s : SysState) (i : Nat)
    (res : Except String JValue) (t : ℚ) :
    (completeStep cfg s i res t).admissionTimes = s.admissionTimes ∧
    (completeStep cfg s i res t).mode = s.mode ∧
    (completeStep cfg s i res t).clock = t := by
  unfold completeStep
  dsimp only
  split
  · split
    · exact ⟨rfl, rfl, rfl⟩
    · exact ⟨rfl, rfl, rfl⟩
  · exact ⟨rfl, rfl, rfl⟩

theorem fetch_frame_time (cfg : Config) (u : SysState) :
    (fetchPhase cfg u).clock = u.clock ∧
    (fetchPhase cfg u).admissionTimes = u.admissionTimes ∧
    (fetchPhase cfg u).mode = u.mode := by
  unfold fetchPhase
  split
  · exact ⟨rfl, rfl, rfl⟩
  · split
    · exact ⟨rfl, rfl, rfl⟩
    · split
      · split
        · exact ⟨rfl, rfl, rfl⟩
        · exact ⟨rfl, rfl, rfl⟩
      · exact ⟨rfl, rfl, rfl⟩

theorem iter_time (cfg : Config) (u : SysState) :
    (iterStep cfg u).clock = u.clock ∧
    (∀ a ∈ (iterStep cfg u).admissionTimes,
      a ∈ u.admissionTimes ∨ a = u.clock) ∧
    ((iterStep cfg u).mode = Mode.drained ∨
      (iterStep cfg u).mode =
        Mode.microSleep (u.clock + cfg.seconds_to_sleep_each_loop)) := by
  obtain ⟨hc1, ha1, hm1⟩ := fetch_frame_time cfg u
  have hc2 : (refillPhase cfg (fetchPhase cfg u)).clock = u.clock := hc1
  have ha2 : (refillPhase cfg (fetchPhase cfg u)).admissionTimes =
      u.admissionTimes := ha1
  have hd : (dispatchPhase (refillPhase cfg (fetchPhase cfg u))).clock = u.clock ∧
      ∀ a ∈ (dispatchPhase (refillPhase cfg (fetchPhase cfg u))).admissionTimes,
        a ∈ u.admissionTimes ∨ a = u.clock := by
    rcases dispatch_cases (refillPhase cfg (fetchPhase cfg u)) with
      ⟨_, he⟩ | ⟨req, _, _, he⟩ | ⟨req, _, _, he⟩
    · rw [he]
      exact ⟨hc2, fun a ha => Or.inl (ha2 ▸ ha)⟩
    · rw [he]
      refine ⟨hc2, ?_⟩
      intro a ha
      have ha' : a ∈ u.admissionTimes ++
          [(refillPhase cfg (fetchPhase cfg u)).clock] := by
        rw [← ha2]
        exact ha
      rcases List.mem_append.mp ha' with ha'' | ha''
      · exact Or.inl ha''
      · simp only [List.mem_cons, List.not_mem_nil, or_false] at ha''
        exact Or.inr (ha''.trans hc2)
    · rw [he]
      exact ⟨hc2, fun a ha => Or.inl (ha2 ▸ ha)⟩
  unfold iterStep
  dsimp only
  split
  · exact ⟨hd.1, hd.2, Or.inl rfl⟩
  · refine ⟨hd.1, hd.2, Or.inr ?_⟩
    rw [hd.1]

theorem wakeMicro_cool (cfg : Config) (s : SysState) (w : ℚ)
    (hcool : w - s.tracker.time_of_last_rate_limit_error <
      cfg.rate_limit_pause) :
    wakeMicroStep cfg s w = { s with clock := w, mode := Mode.coolSleep (s.tracker.time_of_last_rate_limit_error + cfg.rate_limit_pause) } := by
  unfold wakeMicroStep
  dsimp only
  rw [if_pos hcool]

theorem wakeMicro_time (cfg : Config) (u : SysState) (w : ℚ) :
    (wakeMicroStep cfg u w).clock = w ∧
    (wakeMicroStep cfg u w).admissionTimes = u.admissionTimes ∧
    ((wakeMicroStep cfg u w).mode = Mode.ready ∨
      ((wakeMicroStep cfg u w).mode = Mode.coolSleep
          (u.tracker.time_of_last_rate_limit_error + cfg.rate_limit_pause) ∧
        w < u.tracker.time_of_last_rate_limit_error + cfg.rate_limit_pause)) := by
  unfold wakeMicroStep
  dsimp only
  split
  · rename_i hc
    exact ⟨rfl, rfl, Or.inr ⟨rfl, by linarith⟩⟩
  · exact ⟨rfl, rfl, Or.inl rfl⟩

/-- Invariant that carries claim C5's amended guarantee along the run: once
the cooldown sleep for the rejection at time `T` has been entered, every
admission time is either an old one or at least `T + rate_limit_pause`, and
the loop's clock / pending wake can never undercut that bound again. -/
def C5Inv (cfg : Config) (adm0 : List ℚ) (T : ℚ) (u : SysState) : Prop :=
  (∀ a ∈ u.admissionTimes, a ∈ adm0 ∨ T + cfg.rate_limit_pause ≤ a) ∧
  ((u.mode = Mode.coolSleep (T + cfg.rate_limit_pause) ∧
      u.clock ≤ T + cfg.rate_limit_pause) ∨
    (T + cfg.rate_limit_pause ≤ u.clock ∧
      ∀ w2, u.mode.sleepWake = some w2 → T + cfg.rate_limit_pause ≤ w2))

theorem c5inv_step (cfg : Config) (adm0 : List ℚ) (T : ℚ) (u u' : SysState)
    (hd : 0 ≤ cfg.seconds_to_sleep_each_loop) (h : C5Inv cfg adm0 T u)
    (hs : Step cfg u u') : C5Inv cfg adm0 T u' := by
  obtain ⟨hadm, hstate⟩ := h
  cases hs with
  | iter hm =>
    obtain ⟨hck, hadm', hmode⟩ := iter_time cfg u
    rcases hstate with ⟨hcm, hcl⟩ | ⟨hcl, hwb⟩
    · rw [hcm] at hm
      cases hm
    · refine ⟨?_, Or.inr ⟨by rw [hck]; exact hcl, ?_⟩⟩
      · intro a ha
        rcases hadm' a ha with ha' | ha'
        · exact hadm a ha'
        · exact Or.inr (by rw [ha']; exact hcl)
      · intro w2 hw2
        rcases hmode with hmo | hmo
        · rw [hmo] at hw2
          cases hw2
        · rw [hmo] at hw2
          simp only [Mode.sleepWake, Option.some.injEq] at hw2
          subst hw2
          linarith
  | wakeMicro w hm =>
    obtain ⟨hck, hadm', hmode⟩ := wakeMicro_time cfg u w
    rcases hstate with ⟨hcm, hcl⟩ | ⟨hcl, hwb⟩
    · rw [hcm] at hm
      cases hm
    · have hw : T + cfg.rate_limit_pause ≤ w := hwb w (by rw [hm]; rfl)
      refine ⟨?_, Or.inr ⟨by rw [hck]; exact hw, ?_⟩⟩
      · intro a ha
        exact hadm a (hadm' ▸ ha)
      · intro w2 hw2
        rcases hmode with hmo | ⟨hmo, hlt⟩
        · rw [hmo] at hw2
          cases hw2
        · rw [hmo] at hw2
          simp only [Mode.sleepWake, Option.some.injEq] at hw2
          subst hw2
          linarith
  | wakeCool w hm =>
    rcases hstate with ⟨hcm, hcl⟩ | ⟨hcl, hwb⟩
    · rw [hcm] at hm
      injection hm with hweq
      refine ⟨hadm, Or.inr ⟨?_, ?_⟩⟩
      · show T + cfg.rate_limit_pause ≤ w
        rw [← hweq]
      · intro w2 hw2
        cases hw2
    · have hw : T + cfg.rate_limit_pause ≤ w := hwb w (by rw [hm]; rfl)
      refine ⟨hadm, Or.inr ⟨hw, ?_⟩⟩
      intro w2 hw2
      cases hw2
  | complete w i res t hm hi h1 h2 =>
    obtain ⟨hca, hcm', hcc⟩ := complete_frame cfg u i res t
    rcases hstate with ⟨hcm, hcl⟩ | ⟨hcl, hwb⟩
    · have hweq : w = T + cfg.rate_limit_pause := by
        rw [hcm] at hm
        simp only [Mode.sleepWake, Option.some.injEq] at hm
        exact hm.symm
      refine ⟨fun a ha => hadm a (hca ▸ ha),
        Or.inl ⟨by rw [hcm']; exact hcm, ?_⟩⟩
      rw [hcc]
      rw [hweq] at h2
      exact h2
    · refine ⟨fun a ha => hadm a (hca ▸ ha), Or.inr ⟨?_, ?_⟩⟩
      · rw [hcc]
        linarith
      · intro w2 hw2
        rw [hcm'] at hw2
        exact hwb w2 hw2

/-- Claim C5 (amended): once the loop's per-iteration cooldown check runs
and observes the rejection recorded at time `T` within the window, no
admission from that point on happens before `T + rate_limit_pause`.  (The
unamended claim — no admission at all strictly inside `(T, T+W)` — fails:
the check runs at the end of an iteration, after that iteration's admission,
so a rejection arriving during the cooldown sleep leaves one iteration free
to admit inside the window; see the counterexample.) -/
theorem c5_cooldown (cfg : Config) (s : SysState) (w : ℚ)
    (hd : 0 ≤ cfg.seconds_to_sleep_each_loop)
    (hm : s.mode = Mode.microSleep w)
    (hcool : w - s.tracker.time_of_last_rate_limit_error <
      cfg.rate_limit_pause)
    (s' : SysState)
    (hr : Relation.ReflTransGen (Step cfg) (wakeMicroStep cfg s w) s') :
    ∀ a ∈ s'.admissionTimes,
      a ∈ s.admissionTimes ∨
        s.tracker.time_of_last_rate_limit_error + cfg.rate_limit_pause ≤ a := by
  clear hm
  have hInv : C5Inv cfg s.admissionTimes
      s.tracker.time_of_last_rate_limit_error s' := by
    induction hr with
    | refl =>
      rw [wakeMicro_cool cfg s w hcool]
      exact ⟨fun a ha => Or.inl ha, Or.inl ⟨rfl, by linarith⟩⟩
    | tail _ hstep ih => exact c5inv_step cfg _ _ _ _ hd ih hstep
  exact hInv.1

theorem c5_cooldown_witness :
    (0 : ℚ) ≤ cfgW.seconds_to_sleep_each_loop ∧
    ({ initState cfgW [] 0 with mode := Mode.microSleep 5 } : SysState).mode =
      Mode.microSleep 5 ∧
    (5 : ℚ) - ({ initState cfgW [] 0 with
        mode := Mode.microSleep 5 } : SysState).tracker.time_of_last_rate_limit_error <
      cfgW.rate_limit_pause ∧
    ∀ a ∈ (wakeMicroStep cfgW
        { initState cfgW [] 0 with mode := Mode.microSleep 5 } 5).admissionTimes,
      a ∈ ({ initState cfgW [] 0 with
          mode := Mode.microSleep 5 } : SysState).admissionTimes ∨
        ({ initState cfgW [] 0 with
            mode := Mode.microSleep 5 } : SysState).tracker.time_of_last_rate_limit_error +
          cfgW.rate_limit_pause ≤ a :=
  ⟨by norm_num [cfgW], rfl, by norm_num [initState, cfgW],
    c5_cooldown cfgW { initState cfgW [] 0 with mode := Mode.microSleep 5 } 5
      (by norm_num [cfgW]) rfl (by norm_num [initState, cfgW]) _
      Relation.ReflTransGen.refl⟩

/-- The claim C5 as stated: in any run, no admission time falls strictly
inside `(T, T + W)` for any recorded rate-limit rejection time `T`. -/
def C5Statement (cfg : Config) (s0 : SysState) : Prop :=
  ∀ s, Reach cfg s0 s → ∀ T ∈ s.rejectionTimes, ∀ a ∈ s.admissionTimes,
    ¬(T < a ∧ a < T + cfg.rate_limit_pause)

/-- Configuration of the C5 counterexample run. -/
def cfgC5 : Config :=
  { max_requests_per_minute := 100, max_tokens_per_minute := 100,
    max_attempts := 5, estimator := fun _ => 0 }

/-- Input of the C5 counterexample run: two cheap jobs. -/
def srcC5 : List JObject :=
  [[("a", JValue.str "x")], [("b", JValue.str "y")]]

/-- A rate-limit rejection response. -/
def rlResp : JValue :=
  JValue.obj [("error", JValue.obj [("message", JValue.str "Rate limit reached")])]

/-- C5 trace: job 0 as dispatched. -/
def c5job0 : APIRequest :=
  { task_id := 0, request_json := [("a", JValue.str "x")],
    token_consumption := 0, attempts_left := 4, metadata := none,
    result := [], dispatchCount := 1 }

/-- C5 trace: job 1 as dispatched. -/
def c5job1 : APIRequest :=
  { task_id := 1, request_json := [("b", JValue.str "y")],
    token_consumption := 0, attempts_left := 4, metadata := none,
    result := [], dispatchCount := 1 }

/-- C5 trace: job 0 after its rate-limited attempt. -/
def c5job0r : APIRequest :=
  { task_id := 0, request_json := [("a", JValue.str "x")],
    token_consumption := 0, attempts_left := 4, metadata := none,
    result := [ErrRecord.resp rlResp], dispatchCount := 1 }

/-- C5 trace: job 1 after its rate-limited attempt. -/
def c5job1r : APIRequest :=
  { task_id := 1, request_json := [("b", JValue.str "y")],
    token_consumption := 0, attempts_left := 4, metadata := none,
    result := [ErrRecord.resp rlResp], dispatchCount := 1 }

/-- C5 trace: job 0 after its second dispatch (inside the cooldown window of
the rejection at time 110). -/
def c5job0r2 : APIRequest :=
  { task_id := 0, request_json := [("a", JValue.str "x")],
    token_consumption := 0, attempts_left := 3, metadata := none,
    result := [ErrRecord.resp rlResp], dispatchCount := 2 }

/-- C5 trace state A: after iteration 1 (job 0 admitted at time 100). -/
def c5sA : SysState :=
  { next_request := none, file_not_finished := true,
    source := [[("b", JValue.str "y")]], retry_queue := [], task_id_ctr := 1,
    available_request_capacity := 99, available_token_capacity := 100,
    last_update_time := 100,
    tracker := { num_tasks_started := 1, num_tasks_in_progress := 1 },
    inFlight := [c5job0], resultLog := [], clock := 100,
    mode := Mode.microSleep (100 + 1 / 1000),
    admissionTimes := [100], rejectionTimes := [],
    finishedDispatchCounts := [] }

/-- C5 trace state B: after waking from the first micro-sleep (no recent
rejection, so no cooldown). -/
def c5sB : SysState :=
  { c5sA with clock := 100 + 1 / 1000, mode := Mode.ready }

/-- C5 trace state C: after iteration 2 (job 1 admitted at `100.001`). -/
def c5sC : SysState :=
  { next_request := none, file_not_finished := true, source := [],
    retry_queue := [], task_id_ctr := 2,
    available_request_capacity := 98 + 1 / 600,
    available_token_capacity := 100, last_update_time := 100 + 1 / 1000,
    tracker := { num_tasks_started := 2, num_tasks_in_progress := 2 },
    inFlight := [c5job0, c5job1], resultLog := [], clock := 100 + 1 / 1000,
    mode := Mode.microSleep (100 + 1 / 500),
    admissionTimes := [100, 100 + 1 / 1000], rejectionTimes := [],
    finishedDispatchCounts := [] }

/-- C5 trace state D: job 0 rejected by the rate limiter at `100.002`
(during the second micro-sleep) and re-queued. -/
def c5sD : SysState :=
  { next_request := none, file_not_finished := true, source := [],
    retry_queue := [c5job0r], task_id_ctr := 2,
    available_request_capacity := 98 + 1 / 600,
    available_token_capacity := 100, last_update_time := 100 + 1 / 1000,
    tracker := { num_tasks_started := 2, num_tasks_in_progress := 2,
                 num_rate_limit_errors := 1,
                 time_of_last_rate_limit_error := 100 + 1 / 500 },
    inFlight := [c5job1], resultLog := [], clock := 100 + 1 / 500,
    mode := Mode.microSleep (100 + 1 / 500),
    admissionTimes := [100, 100 + 1 / 1000],
    rejectionTimes := [100 + 1 / 500], finishedDispatchCounts := [] }

/-- C5 trace state E: the cooldown check sees the rejection at `100.002` and
enters the cooldown sleep until `115.002`. -/
def c5sE : SysState :=
  { c5sD with clock := 100 + 1 / 500, mode := Mode.coolSleep (115 + 1 / 500) }

/-- C5 trace state F: job 1 rejected by the rate limiter at time 110,
during the cooldown sleep, and re-queued. -/
def c5sF : SysState :=
  { next_request := none, file_not_finished := true, source := [],
    retry_queue := [c5job0r, c5job1r], task_id_ctr := 2,
    available_request_capacity := 98 + 1 / 600,
    available_token_capacity := 100, last_update_time := 100 + 1 / 1000,
    tracker := { num_tasks_started := 2, num_tasks_in_progress := 2,
                 num_rate_limit_errors := 2,
                 time_of_last_rate_limit_error := 110 },
    inFlight := [], resultLog := [], clock := 110,
    mode := Mode.coolSleep (115 + 1 / 500),
    admissionTimes := [100, 100 + 1 / 1000],
    rejectionTimes := [100 + 1 / 500, 110], finishedDispatchCounts := [] }

/-- C5 trace state G: the loop wakes from the cooldown sleep at `115.002`
(sized by the FIRST rejection) without re-checking. -/
def c5sG : SysState :=
  { c5sF with clock := 115 + 1 / 500, mode := Mode.ready }

/-- C5 trace state H: iteration 3 re-admits job 0 at `115.002` — strictly
inside the window `(110, 125)` of the rejection at time 110. -/
def c5sH : SysState :=
  { next_request := none, file_not_finished := true, source := [],
    retry_queue := [c5job1r], task_id_ctr := 2,
    available_request_capacity := 99, available_token_capacity := 100,
    last_update_time := 115 + 1 / 500,
    tracker := { num_tasks_started := 2, num_tasks_in_progress := 2,
                 num_rate_limit_errors := 2,
                 time_of_last_rate_limit_error := 110 },
    inFlight := [c5job0r2], resultLog := [], clock := 115 + 1 / 500,
    mode := Mode.microSleep (115 + 1 / 500 + 1 / 1000),
    admissionTimes := [100, 100 + 1 / 1000, 115 + 1 / 500],
    rejectionTimes := [100 + 1 / 500, 110], finishedDispatchCounts := [] }

theorem c5sA_eq : iterStep cfgC5 (initState cfgC5 srcC5 100) = c5sA := by
  norm_num [iterStep, dispatchPhase, refillPhase, fetchPhase, initState,
    cfgC5, srcC5, lookupKey, removeKey, c5sA, c5job0]
  exact ⟨by decide, fun h => absurd h (by decide)⟩

theorem c5sB_eq : wakeMicroStep cfgC5 c5sA (100 + 1 / 1000) = c5sB := by
  norm_num [wakeMicroStep, cfgC5, c5sA, c5sB]

theorem c5sC_eq : iterStep cfgC5 c5sB = c5sC := by
  norm_num [iterStep, dispatchPhase, refillPhase, fetchPhase, cfgC5,
    lookupKey, removeKey, c5sA, c5sB, c5sC, c5job0, c5job1]
  exact ⟨by decide, fun h => absurd h (by decide)⟩

theorem c5sD_eq :
    completeStep cfgC5 c5sC 0 (Except.ok rlResp) (100 + 1 / 500) = c5sD := by
  norm_num [completeStep, classifyOutcome, pyInErrorCheck, rateLimitSigCheck,
    lookupKey, pyInStr, goInStr, errIsTruthy, ErrRecord.truthy, JValue.truthy,
    rlResp, c5sC, c5sD, c5job0, c5job0r, c5job1, dfltRequest, List.getD,
    List.eraseIdx]

theorem c5sE_eq : wakeMicroStep cfgC5 c5sD (100 + 1 / 500) = c5sE := by
  norm_num [wakeMicroStep, cfgC5, c5sD, c5sE]

theorem c5sF_eq : completeStep cfgC5 c5sE 0 (Except.ok rlResp) 110 = c5sF := by
  norm_num [completeStep, classifyOutcome, pyInErrorCheck, rateLimitSigCheck,
    lookupKey, pyInStr, goInStr, errIsTruthy, ErrRecord.truthy, JValue.truthy,
    rlResp, c5sD, c5sE, c5sF, c5job0r, c5job1, c5job1r, dfltRequest,
    List.getD, List.eraseIdx]

theorem c5sG_eq : wakeCoolStep c5sF (115 + 1 / 500) = c5sG := by
  norm_num [wakeCoolStep, c5sF, c5sG]

theorem c5sH_eq : iterStep cfgC5 c5sG = c5sH := by
  norm_num [iterStep, dispatchPhase, refillPhase, fetchPhase, cfgC5,
    c5sF, c5sG, c5sH, c5job0r, c5job0r2, c5job1r]

theorem c5_trace : Reach cfgC5 (initState cfgC5 srcC5 100) c5sH := by
  have h1 : Step cfgC5 (initState cfgC5 srcC5 100) c5sA :=
    c5sA_eq ▸ Step.iter _ rfl
  have h2 : Step cfgC5 c5sA c5sB :=
    c5sB_eq ▸ Step.wakeMicro c5sA (100 + 1 / 1000) rfl
  have h3 : Step cfgC5 c5sB c5sC :=
    c5sC_eq ▸ Step.iter _ rfl
  have h4 : Step cfgC5 c5sC c5sD :=
    c5sD_eq ▸ Step.complete c5sC (100 + 1 / 500) 0 (Except.ok rlResp)
      (100 + 1 / 500) rfl (by decide) (by norm_num [c5sC]) (by norm_num)
  have h5 : Step cfgC5 c5sD c5sE :=
    c5sE_eq ▸ Step.wakeMicro c5sD (100 + 1 / 500) rfl
  have h6 : Step cfgC5 c5sE c5sF :=
    c5sF_eq ▸ Step.complete c5sE (115 + 1 / 500) 0 (Except.ok rlResp) 110
      rfl (by decide) (by norm_num [c5sE, c5sD]) (by norm_num)
  have h7 : Step cfgC5 c5sF c5sG :=
    c5sG_eq ▸ Step.wakeCool c5sF (115 + 1 / 500) rfl
  have h8 : Step cfgC5 c5sG c5sH :=
    c5sH_eq ▸ Step.iter _ rfl
  exact Relation.ReflTransGen.tail (Relation.ReflTransGen.tail
    (Relation.ReflTransGen.tail (Relation.ReflTransGen.tail
      (Relation.ReflTransGen.tail (Relation.ReflTransGen.tail
        (Relation.ReflTransGen.tail (Relation.ReflTransGen.single h1)
          h2) h3) h4) h5) h6) h7) h8

/-- Claim C5 counterexample: in the traced run, a rate-limit rejection is
recorded at time 110 (during the cooldown sleep scheduled for an earlier
rejection), yet the loop wakes at `115.002` and admits a job immediately —
an admission strictly inside `(110, 110 + 15)` despite ample bucket
capacity, because the cooldown check follows the iteration's dispatch. -/
theorem c5_counterexample : ¬C5Statement cfgC5 (initState cfgC5 srcC5 100) := by
  intro h
  have hx := h c5sH c5_trace 110 (by norm_num [c5sH])
    (115 + 1 / 500) (by norm_num [c5sH])
  exact hx ⟨by norm_num, by norm_num [cfgC5]⟩

end Parareq
